import Mathlib

/-!
# gopassivedns: correlation of DNS questions and responses

A shallow embedding of `cmd/gopassivedns/main.go` (`handleDNS`, `initLogEntry`,
`dnsStream.run`, `cleanDNSCache`, the shard index of `doCapture`, one turn of
`handlePacket`), of `packets.go`, of `logConn`, `facilityToType` and `levelToType`
of `log.go`, of the final wait of `gracefulShutdown` (`signals.go`) and of the helpers of `cmd/gopassivedns/util.go` (`TypeString`, `RRString`).

Conventions of the embedding:

* Go `string` and `[]byte` values are byte sequences; both are `String` here, one
  character per byte, so `string(b)` is the identity and `len` is `String.length`.
  The raw buffers of the TCP stream reader are lists of bytes, `List Nat`.
* Unsigned machine integers are `Nat`; `uint16(x)` is `x % 65536`.
* `time.Time` is an `Int` count of nanoseconds; `time.Now()` reads a clock given as
  the sequence of its successive readings.
* A run-time panic (index out of range) is the result `none`.
* A channel is the list of the values sent on it, in order.
* Functions of the Go standard library and of gopacket that only render a value as
  text are fields of `Extern`.
-/

namespace GoPassiveDNS

/-! ## Data model -/

/-- The type `net.IP`: a byte slice. -/
abbrev IP := List Nat

/-- The type `time.Time`, in nanoseconds. -/
abbrev Time := Int

/-- The type `layers.DNSQuestion`. -/
structure DNSQuestion where
  Name : String
  Type_ : Nat
  Class : Nat
deriving DecidableEq

/-- The type `layers.DNSSOA`, the field read by `RRString`. -/
structure DNSSOA where
  RName : String
deriving DecidableEq

/-- The type `layers.DNSSRV`, the field read by `RRString`. -/
structure DNSSRV where
  Name : String
deriving DecidableEq

/-- The type `layers.DNSMX`, the field read by `RRString`. -/
structure DNSMX where
  Name : String
deriving DecidableEq

/-- The type `layers.DNSResourceRecord`. -/
structure DNSResourceRecord where
  Name : String
  Type_ : Nat
  Class : Nat
  TTL : Nat
  DataLength : Nat
  Data : String
  IP : IP
  NS : String
  CNAME : String
  PTR : String
  TXT : String
  SOA : DNSSOA
  SRV : DNSSRV
  MX : DNSMX
deriving DecidableEq

/-- The type `layers.DNS`: the header fields and sections the program reads. -/
structure DNS where
  ID : Nat
  QR : Bool
  OpCode : Nat
  AA : Bool
  TC : Bool
  RD : Bool
  RA : Bool
  ResponseCode : Nat
  Questions : List DNSQuestion
  Answers : List DNSResourceRecord
  Additionals : List DNSResourceRecord
deriving DecidableEq

/-- The type `DNSMapEntry` (main.go:43): a stored leg and its insertion time. -/
structure DNSMapEntry where
  entry : DNS
  inserted : Time
deriving DecidableEq

/-- The type `DNSLogEntry` (log.go:84), without the cache of its encoding. -/
structure DNSLogEntry where
  QueryID : Nat
  ResponseCode : Nat
  Question : String
  QuestionType : String
  Answer : String
  AnswerType : String
  TTL : Nat
  Server : IP
  Client : IP
  Timestamp : String
  Elapsed : Int
  ClientPort : Nat
  Level : String
  Length : Int
  Proto : String
  Truncated : Bool
  AuthoritativeAnswer : Bool
  RecursionDesired : Bool
  RecursionAvailable : Bool
  ResponseSz : Nat
  QuestionSz : Nat
  Additionals : Bool
deriving DecidableEq

/-- Text renderings supplied by libraries outside the repository:
`layers.DNSResponseCode.String`, `net.IP.String` and `time.Time.UTC().String()`. -/
structure Extern where
  rcodeString : Nat → String
  ipString : IP → String
  timeString : Time → String

/-! ## Constants -/

/-- The constant `udpString` (main.go:29). -/
def udpString : String := "udp"

/-- The constant `tcpString` (main.go:30). -/
def tcpString : String := "tcp"

/-- The constant `packetString` (main.go:31). -/
def packetString : String := "packet"

/-- The constant `layers.DNSTypeA`. -/
def DNSTypeA : Nat := 1
/-- The constant `layers.DNSTypeNS`. -/
def DNSTypeNS : Nat := 2
/-- The constant `layers.DNSTypeCNAME`. -/
def DNSTypeCNAME : Nat := 5
/-- The constant `layers.DNSTypeSOA`. -/
def DNSTypeSOA : Nat := 6
/-- The constant `layers.DNSTypePTR`. -/
def DNSTypePTR : Nat := 12
/-- The constant `layers.DNSTypeMX`. -/
def DNSTypeMX : Nat := 15
/-- The constant `layers.DNSTypeTXT`. -/
def DNSTypeTXT : Nat := 16
/-- The constant `layers.DNSTypeAAAA`. -/
def DNSTypeAAAA : Nat := 28
/-- The constant `layers.DNSTypeSRV`. -/
def DNSTypeSRV : Nat := 33

/-! ## Library functions with a fixed meaning -/

/-- The function `strconv.Itoa` on a non-negative argument, also the verb `%d`. -/
def Itoa (n : Nat) : String := Nat.repr n

/-- The conversion `uint16(x)`. -/
def uint16 (x : Nat) : Nat := x % 65536

/-- The method `time.Time.Sub` followed by `Nanoseconds()`: the difference,
saturated to the range of a 64-bit signed `Duration`. -/
def SubNanoseconds (t u : Time) : Int :=
  if t - u > 9223372036854775807 then 9223372036854775807
  else if t - u < -9223372036854775808 then -9223372036854775808
  else t - u

/-! ## util.go -/

/-- The function `TypeString` (util.go:16). -/
def TypeString (dnsType : Nat) : String :=
  if dnsType = DNSTypeA then "A"
  else if dnsType = DNSTypeAAAA then "AAAA"
  else if dnsType = DNSTypeCNAME then "CNAME"
  else if dnsType = DNSTypeMX then "MX"
  else if dnsType = DNSTypeNS then "NS"
  else if dnsType = DNSTypePTR then "PTR"
  else if dnsType = DNSTypeTXT then "TXT"
  else if dnsType = DNSTypeSOA then "SOA"
  else if dnsType = DNSTypeSRV then "SRV"
  else if dnsType = 255 then "ANY"
  else Itoa dnsType

/-- The function `RRString` (util.go:50). -/
def RRString (ext : Extern) (rr : DNSResourceRecord) : String :=
  if rr.Type_ = DNSTypeA then ext.ipString rr.IP
  else if rr.Type_ = DNSTypeAAAA then ext.ipString rr.IP
  else if rr.Type_ = DNSTypeCNAME then rr.CNAME
  else if rr.Type_ = DNSTypeMX then rr.MX.Name
  else if rr.Type_ = DNSTypeNS then rr.NS
  else if rr.Type_ = DNSTypePTR then rr.PTR
  else if rr.Type_ = DNSTypeTXT then rr.TXT
  else if rr.Type_ = DNSTypeSOA then rr.SOA.RName
  else if rr.Type_ = DNSTypeSRV then rr.SRV.Name
  else rr.Data

/-! ## The connection table: a Go `map[string]DNSMapEntry` -/

/-- The field `connectionTable.connections` (main.go:50) as an association list. -/
abbrev ConnTable := List (String × DNSMapEntry)

/-- The map read `connections[key]`: the entry and whether it was found. -/
def mapGet (m : ConnTable) (key : String) : Option DNSMapEntry :=
  (m.find? (fun kv => kv.1 == key)).map (fun kv => kv.2)

/-- The statement `delete(connections, key)`. -/
def mapDelete (m : ConnTable) (key : String) : ConnTable :=
  m.filter (fun kv => kv.1 != key)

/-- The assignment `connections[key] = e`. -/
def mapSet (m : ConnTable) (key : String) (e : DNSMapEntry) : ConnTable :=
  (key, e) :: mapDelete m key

/-! ## main.go: record construction -/

/-- The record appended by the error branch of `initLogEntry` (main.go:144-167);
`now0` and `now1` are the two readings of `time.Now()` made for it. -/
def errorEntry (ext : Extern) (now0 now1 : Time) (syslogPriority : String) (srcIP : IP)
    (srcPort : Nat) (dstIP : IP) (length : Int) (protocol : String) (q0 : DNSQuestion)
    (answer question : DNS) (timestamp : Time) (additionals : Bool) : DNSLogEntry :=
  { Level := syslogPriority
    QueryID := answer.ID
    Question := q0.Name
    ResponseCode := answer.ResponseCode
    QuestionType := TypeString q0.Type_
    Answer := ext.rcodeString answer.ResponseCode
    AnswerType := ""
    TTL := 0
    AuthoritativeAnswer := answer.AA
    RecursionDesired := question.RD
    RecursionAvailable := question.RA
    Server := srcIP
    Client := dstIP
    Timestamp := ext.timeString now0
    Elapsed := SubNanoseconds now1 timestamp
    ClientPort := srcPort
    Length := length
    Proto := protocol
    Truncated := answer.TC
    ResponseSz := 0
    QuestionSz := uint16 q0.Name.length
    Additionals := additionals }

/-- The record appended for one answer by the loop of `initLogEntry`
(main.go:172-195). -/
def answerEntry (ext : Extern) (now0 now1 : Time) (syslogPriority : String) (srcIP : IP)
    (srcPort : Nat) (dstIP : IP) (length : Int) (protocol : String) (q0 : DNSQuestion)
    (answer question : DNS) (timestamp : Time) (additionals : Bool)
    (ans : DNSResourceRecord) : DNSLogEntry :=
  { QueryID := answer.ID
    Question := q0.Name
    ResponseCode := answer.ResponseCode
    QuestionType := TypeString q0.Type_
    Answer := RRString ext ans
    AnswerType := TypeString ans.Type_
    TTL := ans.TTL
    Server := srcIP
    Client := dstIP
    Timestamp := ext.timeString now0
    Elapsed := SubNanoseconds now1 timestamp
    ClientPort := srcPort
    Level := syslogPriority
    AuthoritativeAnswer := answer.AA
    RecursionDesired := question.RD
    RecursionAvailable := question.RA
    Length := length
    Proto := protocol
    Truncated := answer.TC
    ResponseSz := ans.DataLength
    QuestionSz := uint16 q0.Name.length
    Additionals := additionals }

/-- The loop `for _, ans := range answer.Answers` of `initLogEntry` (main.go:170):
`k` counts the clock readings made so far; `question.Questions[0]` is read in
every iteration and panics on an empty question list. -/
def answerLoop (ext : Extern) (clock : Nat → Time) (syslogPriority : String) (srcIP : IP)
    (srcPort : Nat) (dstIP : IP) (length : Int) (protocol : String)
    (question answer : DNS) (timestamp : Time) (additionals : Bool) :
    List DNSResourceRecord → Nat → List DNSLogEntry → Option (List DNSLogEntry)
  | [], _, logs => some logs
  | ans :: rest, k, logs =>
    match question.Questions.head? with
    | none => none
    | some q0 =>
      answerLoop ext clock syslogPriority srcIP srcPort dstIP length protocol question
        answer timestamp additionals rest (k + 2)
        (logs ++ [answerEntry ext (clock k) (clock (k + 1)) syslogPriority srcIP srcPort
          dstIP length protocol q0 answer question timestamp additionals ans])

/-- The function `initLogEntry` (main.go:120). It returns the slice `*logs` and the
string `*protocol` as they stand on return, or `none` when it panics. -/
def initLogEntry (ext : Extern) (clock : Nat → Time) (syslogPriority : String) (srcIP : IP)
    (srcPort : Nat) (dstIP : IP) (length : Int) (protocol : String)
    (question answer : DNS) (timestamp : Time) (logs : List DNSLogEntry) :
    Option (List DNSLogEntry × String) :=
  let protocol := if protocol = packetString then udpString else protocol
  let additionals : Bool := decide (answer.Additionals.length ≠ 0)
  if answer.ResponseCode ≠ 0 then
    match question.Questions.head? with
    | none => none
    | some q0 =>
      some (logs ++ [errorEntry ext (clock 0) (clock 1) syslogPriority srcIP srcPort dstIP
        length protocol q0 answer question timestamp additionals], protocol)
  else
    (answerLoop ext clock syslogPriority srcIP srcPort dstIP length protocol question
      answer timestamp additionals answer.Answers 0 logs).map (fun ls => (ls, protocol))

/-! ## main.go: the correlator -/

/-- The string `uid` built by `handleDNS` (main.go:242-247) with
`fmt.Sprintf("%s->%d:%d", strconv.Itoa(int(dns.ID)), ...)`. -/
def uid (id srcPort dstPort : Nat) : String :=
  if dstPort = 53 then Itoa id ++ "->" ++ Itoa srcPort ++ ":" ++ Itoa dstPort
  else Itoa id ++ "->" ++ Itoa dstPort ++ ":" ++ Itoa srcPort

/-- What one call of `handleDNS` leaves behind: the connection table, the records
sent on `logChan` in order, the string behind `protocol`, and the counters
incremented on the statsd client. -/
structure Handled where
  connections : ConnTable
  logChan : List DNSLogEntry
  protocol : String
  stats : List String
deriving DecidableEq

/-- The function `handleDNS` (main.go:232), run alone on the table. `stats` tells
whether the statsd client is non-nil. The result is `none` when record
construction panics. -/
def handleDNS (ext : Extern) (clock : Nat → Time) (conntable : ConnTable) (dns : DNS)
    (syslogPriority : String) (srcIP dstIP : IP) (srcPort dstPort : Nat) (length : Int)
    (protocol : String) (packetTime : Time) (stats : Bool) : Option Handled :=
  let logs : List DNSLogEntry := []
  let key := uid dns.ID srcPort dstPort
  match mapGet conntable key with
  | some item =>
    if dns.QR then
      match initLogEntry ext clock syslogPriority srcIP srcPort dstIP length protocol
          item.entry dns item.inserted logs with
      | none => none
      | some (logs, protocol) =>
        some { connections := mapDelete conntable key
               logChan := logs
               protocol := protocol
               stats := if stats then ["log_qr"] else [] }
    else
      match initLogEntry ext clock syslogPriority srcIP srcPort dstIP length protocol
          dns item.entry item.inserted logs with
      | none => none
      | some (logs, protocol) =>
        some { connections := mapDelete conntable key
               logChan := logs
               protocol := protocol
               stats := if stats then ["log_no_qr"] else [] }
  | none =>
    some { connections := mapSet conntable key { entry := dns, inserted := packetTime }
           logChan := []
           protocol := protocol
           stats := [] }

/-! ## Sample data, after the captures used by `main_test.go` -/

/-- A sample of the library renderings: response code 3 reads "Non-Existent Domain"
(as `TestParseNXDOMAIN` expects), an address is its bytes in decimal joined by
dots, a time is its count of nanoseconds. -/
def sampleExtern : Extern where
  rcodeString := fun c => if c = 0 then "No Error" else if c = 3 then "Non-Existent Domain"
    else "Unknown"
  ipString := fun ip => ".".intercalate (ip.map Itoa)
  timeString := fun t => Itoa t.toNat

/-- A sample clock: the reading number `k` is `5000 + k` nanoseconds. -/
def sampleClock : Nat → Time := fun k => 5000 + k

/-- A resource record with every field empty. -/
def emptyRR : DNSResourceRecord where
  Name := ""
  Type_ := 0
  Class := 1
  TTL := 0
  DataLength := 0
  Data := ""
  IP := []
  NS := ""
  CNAME := ""
  PTR := ""
  TXT := ""
  SOA := { RName := "" }
  SRV := { Name := "" }
  MX := { Name := "" }

/-- The question leg of the `nxdomain` capture (`TestParseNXDOMAIN`). -/
def nxQuestion : DNS where
  ID := 0xb369
  QR := false
  OpCode := 0
  AA := false
  TC := false
  RD := true
  RA := false
  ResponseCode := 0
  Questions := [{ Name := "asdtartfgeasf.asdfgsdf.com", Type_ := 1, Class := 1 }]
  Answers := []
  Additionals := []

/-- The response leg of the `nxdomain` capture: response code 3, no answer. -/
def nxResponse : DNS where
  ID := 0xb369
  QR := true
  OpCode := 0
  AA := false
  TC := false
  RD := true
  RA := true
  ResponseCode := 3
  Questions := [{ Name := "asdtartfgeasf.asdfgsdf.com", Type_ := 1, Class := 1 }]
  Answers := []
  Additionals := []

/-- The question leg of the `ns` capture (`TestParseNS`). -/
def nsQuestion : DNS where
  ID := 0x6162
  QR := false
  OpCode := 0
  AA := false
  TC := false
  RD := true
  RA := false
  ResponseCode := 0
  Questions := [{ Name := "google.com", Type_ := 2, Class := 1 }]
  Answers := []
  Additionals := []

/-- One name-server record of the `ns` capture. -/
def nsRR (host : String) : DNSResourceRecord :=
  { emptyRR with Name := "google.com", Type_ := 2, TTL := 21581, DataLength := 6, NS := host }

/-- The response leg of the `ns` capture: four name-server records. -/
def nsResponse : DNS where
  ID := 0x6162
  QR := true
  OpCode := 0
  AA := false
  TC := false
  RD := true
  RA := true
  ResponseCode := 0
  Questions := [{ Name := "google.com", Type_ := 2, Class := 1 }]
  Answers := [nsRR "ns2.google.com", nsRR "ns1.google.com", nsRR "ns3.google.com",
    nsRR "ns4.google.com"]
  Additionals := []

/-- A message with an empty question section. -/
def noQuestion : DNS where
  ID := 0xb369
  QR := false
  OpCode := 0
  AA := false
  TC := false
  RD := false
  RA := false
  ResponseCode := 0
  Questions := []
  Answers := []
  Additionals := []

/-- The address 10.0.0.1 of a sample client. -/
def clientIP : IP := [10, 0, 0, 1]

/-- The address 8.8.8.8 of a sample server. -/
def serverIP : IP := [8, 8, 8, 8]

/-! ## Decimal rendering -/

/-- Reads a string of decimal digits back as a number. -/
def readDec (cs : List Char) : Nat :=
  cs.foldl (fun acc c => 10 * acc + (c.toNat - 48)) 0

/-- The records that the answer loop of `initLogEntry` appends, in order, when the
first question of the question leg is `q0`: one per answer, the record number `i`
made with the clock readings `k + 2 * i` and `k + 2 * i + 1`. -/
def answerEntries (ext : Extern) (clock : Nat → Time) (syslogPriority : String) (srcIP : IP)
    (srcPort : Nat) (dstIP : IP) (length : Int) (protocol : String) (q0 : DNSQuestion)
    (answer question : DNS) (timestamp : Time) (additionals : Bool) :
    List DNSResourceRecord → Nat → List DNSLogEntry
  | [], _ => []
  | ans :: rest, k =>
    answerEntry ext (clock k) (clock (k + 1)) syslogPriority srcIP srcPort dstIP length
        protocol q0 answer question timestamp additionals ans ::
      answerEntries ext clock syslogPriority srcIP srcPort dstIP length protocol q0 answer
        question timestamp additionals rest (k + 2)

/-- The value of `*protocol` after `initLogEntry` (main.go:133-135). -/
def protocolAfter (protocol : String) : String :=
  if protocol = packetString then udpString else protocol

/-! ## main.go: TCP reassembly -/

/-- The type `gopacket.Flow` of a network layer: its two endpoints. -/
structure Flow where
  src : IP
  dst : IP
deriving DecidableEq

/-- The type `TCPDataStruct` (main.go:55). -/
structure TCPDataStruct where
  DNSData : List Nat
  IPLayer : Flow
  Length : Nat
deriving DecidableEq

/-- The type `dnsStream` (main.go:65), without its reader. -/
structure dnsStream where
  net : Flow
  transport : Flow
deriving DecidableEq

/-- The function `binary.BigEndian.Uint16` on the first two bytes of a slice. -/
def Uint16 (b : List Nat) : Nat :=
  (b.getD 0 0 % 256) * 256 + b.getD 1 0 % 256

/-- The built-in `copy(dst, src)`: the destination afterwards and the number of
bytes copied. -/
def copy (dst src : List Nat) : List Nat × Nat :=
  (src.take (min dst.length src.length) ++ dst.drop (min dst.length src.length),
    min dst.length src.length)

/-- What one call `d.r.Read(tmp)` returns before end-of-stream: `data bytes` is a
read with a nil error that copied `bytes` into `tmp`, `error` is a read with an
error other than `io.EOF`. -/
inductive ReadResult where
  | data (bytes : List Nat)
  | error
deriving DecidableEq

/-- The branch `err == io.EOF` of `dnsStream.run` (main.go:89-109) on the buffer
`data`: the values sent on `reassemblerChan`. -/
def dnsStream.atEOF (d : dnsStream) (data : List Nat) : List TCPDataStruct :=
  if data.length < 2 then []
  else
    let DNSdatalen := Uint16 (data.take 2)
    if data.length < DNSdatalen + 2 then []
    else [{ DNSData := (data.take (DNSdatalen + 2)).drop 2
            IPLayer := d.net
            Length := Uint16 (data.take 2) }]

/-- The loop of `dnsStream.run` (main.go:86-115) over the reads that precede
end-of-stream, with the buffers `data` and `tmp` as they stand. -/
def dnsStream.loop (d : dnsStream) : List ReadResult → List Nat → List Nat → List TCPDataStruct
  | [], data, _ => d.atEOF data
  | ReadResult.error :: rest, data, tmp => d.loop rest data tmp
  | ReadResult.data bytes :: rest, data, tmp =>
    if (copy tmp bytes).2 > 0 then d.loop rest (data ++ (copy tmp bytes).1) (copy tmp bytes).1
    else d.loop rest data (copy tmp bytes).1

/-- The function `dnsStream.run` (main.go:82) on a stream that yields `reads` and
then `io.EOF`: the values sent on `reassemblerChan`. -/
def dnsStream.run (d : dnsStream) (reads : List ReadResult) : List TCPDataStruct :=
  d.loop reads [] (List.replicate 4096 0)

/-- The bytes a sequence of reads delivered, concatenated. -/
def bytesRead : List ReadResult → List Nat
  | [] => []
  | ReadResult.error :: rest => bytesRead rest
  | ReadResult.data bytes :: rest => bytes ++ bytesRead rest

/-- The framing rule in the words of the specification (section 4.3) on the bytes of
a stream: at least 2 bytes, a big-endian 16-bit length prefix, at least prefix + 2
bytes buffered, and then the bytes `[2 .. 2+prefix)` tagged with the flow. -/
def framingRule (flow : Flow) (stream : List Nat) : List TCPDataStruct :=
  match stream with
  | b0 :: b1 :: rest =>
    if (b0 % 256) * 256 + b1 % 256 ≤ rest.length then
      [{ DNSData := rest.take ((b0 % 256) * 256 + b1 % 256)
         IPLayer := flow
         Length := (b0 % 256) * 256 + b1 % 256 }]
    else []
  | _ => []

/-! ## main.go: the shard index -/

/-- The conversion `int(x)` of a `uint64` on a 64-bit platform. -/
def int64 (x : Nat) : Int :=
  if x % 18446744073709551616 < 9223372036854775808 then (x % 18446744073709551616 : Nat)
  else ((x % 18446744073709551616 : Nat) : Int) - 18446744073709551616

/-- The bit pattern of an `int` on a 64-bit platform, as an unsigned number. -/
def uint64 (x : Int) : Nat :=
  (x % 18446744073709551616).toNat

/-- The operator `&` on two `int` values: the bitwise and of their two's-complement
bit patterns. -/
def andInt (a b : Int) : Int :=
  int64 (uint64 a &&& uint64 b)

/-- The index `int(flow.FastHash()) & (numprocs-1)` of `doCapture` (main.go:500, 509,
516) and `gracefulShutdown` (signals.go:23), for the flow hash `hash`. -/
def shardIndex (hash : Nat) (numprocs : Int) : Int :=
  andInt (int64 hash) (numprocs - 1)

/-! ## main.go: garbage collection of the connection table -/

/-- The loop `for key, item := range conntable.connections` of `cleanDNSCache`
(main.go:210-222): `pending` are the entries still to visit, `m` is the table as it
stands, `incrs` the counters incremented so far. -/
def gcLoop (cleanupCutoff : Time) (stats : Bool) :
    List (String × DNSMapEntry) → ConnTable → List String → ConnTable × List String
  | [], m, incrs => (m, incrs)
  | (key, item) :: pending, m, incrs =>
    if item.inserted < cleanupCutoff then
      gcLoop cleanupCutoff stats pending (mapDelete m key)
        (if stats then incrs ++ ["cache_entries_dropped"] else incrs)
    else gcLoop cleanupCutoff stats pending m incrs

/-- One scan of `cleanDNSCache` (main.go:206-223), the case `<-scheduled.C`, run alone
on the table at the time `now`: the table and the counters incremented. -/
def cleanDNSCache (conntable : ConnTable) (now : Time) (maxAge : Int) (stats : Bool) :
    ConnTable × List String :=
  gcLoop (now + maxAge) stats conntable conntable []

/-- A question name of 65536 bytes. -/
def longName : String := String.mk (List.replicate 65536 'a')

/-- A question leg whose first question has the name `longName`. -/
def longQuestion : DNS :=
  { nxQuestion with Questions := [{ Name := longName, Type_ := 1, Class := 1 }] }

/-- A sample stream: its network flow from the client to the server. -/
def sampleStream : dnsStream where
  net := { src := clientIP, dst := serverIP }
  transport := { src := [156, 64], dst := [0, 53] }

/-- A sample table: the `ns` question inserted at the time 900 and the `nxdomain`
question inserted at the time 1000. -/
def sampleTable : ConnTable :=
  [(uid 0x6162 40001 53, { entry := nsQuestion, inserted := 900 }),
   (uid 0xb369 40000 53, { entry := nxQuestion, inserted := 1000 })]

/-- The record of the `nxdomain` exchange when the response leg, from the server port
53, hits the question stored at the time 1000 under the sample clock. -/
def nxRecord : DNSLogEntry :=
  errorEntry sampleExtern (sampleClock 0) (sampleClock 1) "DEBUG" serverIP 53 clientIP 161
    "udp" { Name := "asdtartfgeasf.asdfgsdf.com", Type_ := 1, Class := 1 } nxResponse nxQuestion
    1000 false

/-! ## packets.go -/

/-- The values of `gopacket.LayerType` that the two parsers of `Parse` can report. -/
inductive LayerType where
  | LayerTypeEthernet
  | LayerTypeIPv4
  | LayerTypeIPv6
  | LayerTypeUDP
  | LayerTypeTCP
  | LayerTypeDNS
  | LayerTypePayload
deriving DecidableEq

/-- The type `layers.IPv4`: the addresses read by the program. -/
structure IPv4 where
  SrcIP : IP
  DstIP : IP
deriving DecidableEq

/-- The type `layers.IPv6`: the addresses read by the program. -/
structure IPv6 where
  SrcIP : IP
  DstIP : IP
deriving DecidableEq

/-- The type `layers.UDP`: the ports read by the program. -/
structure UDP where
  SrcPort : Nat
  DstPort : Nat
deriving DecidableEq

/-- The type `layers.TCP`: the ports read by the program. -/
structure TCP where
  SrcPort : Nat
  DstPort : Nat
deriving DecidableEq

/-- The type `gopacket.Packet`: the bytes of the frame and its capture metadata. -/
structure Packet where
  Data : List Nat
  Timestamp : Time
  Length : Int
deriving DecidableEq

/-- What `parser.DecodeLayers` leaves behind on a raw frame: the layer types found and
the layer structs as filled in. -/
structure RawLayers where
  found : List LayerType
  ipv4 : IPv4
  ipv6 : IPv6
  udp : UDP
  tcp : TCP
  dns : DNS

/-- The decoders of gopacket, outside the repository: `decodeDNS` is
`dnsParser.DecodeLayers` on a reassembled payload (the `layers.DNS` struct as the
decoder leaves it, and whether the DNS layer decoded and `LayerTypeDNS` was found);
`decodePacket` is `parser.DecodeLayers` on the bytes of a raw frame. -/
structure Decoders where
  decodeDNS : List Nat → DNS × Bool
  decodePacket : List Nat → RawLayers

/-- The type `packetData` (packets.go:15); a nil pointer is `none`. -/
structure packetData where
  packet : Packet
  tcpdata : TCPDataStruct
  datatype : String
  foundLayerTypes : List LayerType
  IPv4Layer : Option IPv4
  IPv6Layer : Option IPv6
  udpLayer : Option UDP
  tcpLayer : Option TCP
  dns : Option DNS

/-- The zero value of `gopacket.Packet`. -/
def Packet.zero : Packet := { Data := [], Timestamp := 0, Length := 0 }

/-- The zero value of `TCPDataStruct`. -/
def TCPDataStruct.zero : TCPDataStruct :=
  { DNSData := [], IPLayer := { src := [], dst := [] }, Length := 0 }

/-- The function `newTCPData` (packets.go:34). -/
def newTCPData (tcpdata : TCPDataStruct) : packetData :=
  { packet := Packet.zero, tcpdata := tcpdata, datatype := tcpString, foundLayerTypes := [],
    IPv4Layer := none, IPv6Layer := none, udpLayer := none, tcpLayer := none, dns := none }

/-- The function `newPacketData` (packets.go:41). -/
def newPacketData (packet : Packet) : packetData :=
  { packet := packet, tcpdata := TCPDataStruct.zero, datatype := packetString,
    foundLayerTypes := [], IPv4Layer := none, IPv6Layer := none, udpLayer := none,
    tcpLayer := none, dns := none }

/-- The function `foundLayerType` (util.go:80). -/
def foundLayerType (layer : LayerType) : List LayerType → Bool
  | [] => false
  | value :: found => if value = layer then true else foundLayerType layer found

/-- The method `packetData.Parse` (packets.go:48): the error returned, or the packet
data as it stands on a nil return. The error of `DecodeLayers` is not looked at. -/
def packetData.Parse (dec : Decoders) (pd : packetData) : Except String packetData :=
  if pd.datatype = tcpString then
    Except.ok { pd with
      dns := some (dec.decodeDNS pd.tcpdata.DNSData).1
      foundLayerTypes :=
        if (dec.decodeDNS pd.tcpdata.DNSData).2 then [LayerType.LayerTypeDNS] else [] }
  else if pd.datatype = packetString then
    Except.ok { pd with
      IPv4Layer := some (dec.decodePacket pd.packet.Data).ipv4
      IPv6Layer := some (dec.decodePacket pd.packet.Data).ipv6
      udpLayer := some (dec.decodePacket pd.packet.Data).udp
      tcpLayer := some (dec.decodePacket pd.packet.Data).tcp
      dns := some (dec.decodePacket pd.packet.Data).dns
      foundLayerTypes := (dec.decodePacket pd.packet.Data).found }
  else Except.error ("Bad packet type: " ++ pd.datatype)

/-- The method `packetData.HasTCPLayer` (packets.go:152). -/
def packetData.HasTCPLayer (pd : packetData) : Bool :=
  foundLayerType LayerType.LayerTypeTCP pd.foundLayerTypes

/-- The method `packetData.HasIPv4Layer` (packets.go:156). -/
def packetData.HasIPv4Layer (pd : packetData) : Bool :=
  foundLayerType LayerType.LayerTypeIPv4 pd.foundLayerTypes

/-- The method `packetData.HasIPv6Layer` (packets.go:160). -/
def packetData.HasIPv6Layer (pd : packetData) : Bool :=
  foundLayerType LayerType.LayerTypeIPv6 pd.foundLayerTypes

/-- The method `packetData.HasDNSLayer` (packets.go:164). -/
def packetData.HasDNSLayer (pd : packetData) : Bool :=
  foundLayerType LayerType.LayerTypeDNS pd.foundLayerTypes

/-- The method `packetData.GetSrcIP` (packets.go:92); `none` is the dereference of a
nil layer pointer. -/
def packetData.GetSrcIP (pd : packetData) : Option IP :=
  if pd.HasIPv4Layer then pd.IPv4Layer.map (fun l => l.SrcIP)
  else if pd.HasIPv6Layer then pd.IPv6Layer.map (fun l => l.SrcIP)
  else some pd.tcpdata.IPLayer.src

/-- The method `packetData.GetDstIP` (packets.go:102). -/
def packetData.GetDstIP (pd : packetData) : Option IP :=
  if pd.HasIPv4Layer then pd.IPv4Layer.map (fun l => l.DstIP)
  else if pd.HasIPv6Layer then pd.IPv6Layer.map (fun l => l.DstIP)
  else some pd.tcpdata.IPLayer.dst

/-- The method `packetData.GetSrcPort` (packets.go:112). -/
def packetData.GetSrcPort (pd : packetData) : Nat :=
  match pd.udpLayer with
  | some udp => uint16 udp.SrcPort
  | none =>
    match pd.tcpLayer with
    | some tcp => uint16 tcp.SrcPort
    | none => uint16 0

/-- The method `packetData.GetDstPort` (packets.go:122). -/
def packetData.GetDstPort (pd : packetData) : Nat :=
  match pd.udpLayer with
  | some udp => uint16 udp.DstPort
  | none =>
    match pd.tcpLayer with
    | some tcp => uint16 tcp.DstPort
    | none => uint16 0

/-- The method `packetData.IsTCPStream` (packets.go:132). -/
def packetData.IsTCPStream (pd : packetData) : Bool :=
  decide (pd.datatype = tcpString)

/-- The method `packetData.GetTimestamp` (packets.go:168): `none` is the nil pointer. -/
def packetData.GetTimestamp (pd : packetData) : Option Time :=
  if pd.datatype = packetString then some pd.packet.Timestamp else none

/-- The method `packetData.GetSize` (packets.go:176): the integer pointed to. -/
def packetData.GetSize (pd : packetData) : Int :=
  if pd.datatype = packetString then pd.packet.Length else 0

/-- The method `packetData.GetProto` (packets.go:187): the string pointed to. -/
def packetData.GetProto (pd : packetData) : String :=
  pd.datatype

/-- The method `net.IP.To4`: the 4-byte form of an IPv4 address, or `none` for nil. -/
def To4 (ip : IP) : Option IP :=
  if ip.length = 4 then some ip
  else if ip.length = 16 ∧ ip.take 10 = List.replicate 10 0 ∧ ip.getD 10 0 = 255
      ∧ ip.getD 11 0 = 255 then some (ip.drop 12)
  else none

/-! ## main.go: one turn of the shard worker -/

/-- What one turn of the loop of `handlePacket` (main.go:311-393) does with a packet
taken from its queue. -/
inductive Outcome where
  /-- `Parse` returned an error: the packet is skipped. -/
  | parseError (err : String)
  /-- The call `handleDNS(...)` was made: its result (`none` when it panics) and the
  counters `handlePacket` itself incremented. -/
  | correlated (result : Option Handled) (stats : List String)
  /-- The call `assembler.AssembleWithTimestamp(flow, tcp, timestamp)` was made. -/
  | assembled (flow : Flow) (tcp : TCP) (timestamp : Time)
  /-- Neither a TCP nor a DNS layer: "Missing a DNS layer?". -/
  | missing

/-- The connection table after a turn that started on `conntable`; `none` when
`handleDNS` panicked. -/
def Outcome.connections (conntable : ConnTable) : Outcome → Option ConnTable
  | Outcome.correlated result _ => result.map (fun s => s.connections)
  | _ => some conntable

/-- The records sent on the log channel in a turn. -/
def Outcome.logChan : Outcome → List DNSLogEntry
  | Outcome.correlated (some s) _ => s.logChan
  | _ => []

/-- One turn of the loop of `handlePacket` (main.go:311-393) for a packet received
from the queue, run alone on the table; `none` is a panic on a nil pointer. The
clock readings of `handleDNS` follow the one reading `handlePacket` makes when the
packet has no timestamp. -/
def handlePacket (ext : Extern) (dec : Decoders) (clock : Nat → Time) (conntable : ConnTable)
    (packet : packetData) (syslogPriority : String) (threadNum : Nat) (stats : Bool) :
    Option Outcome :=
  match packet.Parse dec with
  | Except.error err => some (Outcome.parseError err)
  | Except.ok packet =>
    match packet.GetSrcIP, packet.GetDstIP with
    | some srcIP, some dstIP =>
      let srcPort := packet.GetSrcPort
      let dstPort := packet.GetDstPort
      let packetTime := match packet.GetTimestamp with
        | some t => t
        | none => clock 0
      let clock2 := match packet.GetTimestamp with
        | some _ => clock
        | none => fun k => clock (k + 1)
      let wall : List String := match packet.GetTimestamp with
        | some _ => []
        | none => if stats then [Itoa threadNum ++ ".packet_wall_time"] else []
      if packet.IsTCPStream then
        match packet.dns with
        | none => none
        | some dns =>
          some (Outcome.correlated
            (handleDNS ext clock2 conntable dns syslogPriority srcIP dstIP srcPort dstPort
              packet.GetSize packet.GetProto packetTime stats) wall)
      else if packet.HasTCPLayer then
        match packet.tcpLayer, packet.GetTimestamp with
        | some tcp, some ts =>
          if (To4 srcIP).isSome then
            match packet.IPv4Layer with
            | some l => some (Outcome.assembled { src := l.SrcIP, dst := l.DstIP } tcp ts)
            | none => none
          else
            match packet.IPv6Layer with
            | some l => some (Outcome.assembled { src := l.SrcIP, dst := l.DstIP } tcp ts)
            | none => none
        | _, _ => none
      else if packet.HasDNSLayer then
        match packet.dns with
        | none => none
        | some dns =>
          some (Outcome.correlated
            (handleDNS ext clock2 conntable dns syslogPriority srcIP dstIP srcPort dstPort
              packet.GetSize packet.GetProto packetTime stats)
            (wall ++ if stats then [Itoa threadNum ++ ".dns_lookups"] else []))
      else some Outcome.missing
    | _, _ => none

/-! ## log.go: the fan-out and the syslog names -/

/-- The type `logOptions` (log.go:22), without its control channel. -/
structure logOptions where
  quiet : Bool
  debug : Bool
  Filename : String
  FluentdSocket : String
  MaxAge : Int
  MaxBackups : Int
  MaxSize : Int
  KafkaBrokers : String
  KafkaTopic : String
  SyslogFacility : String
  SyslogPriority : String
  SensorName : String
  closed : Bool

/-- The method `logOptions.LogToStdout` (log.go:60). -/
def logOptions.LogToStdout (lo : logOptions) : Bool := !lo.quiet

/-- The method `logOptions.LogToFile` (log.go:64). -/
def logOptions.LogToFile (lo : logOptions) : Bool := !(lo.Filename == "")

/-- The method `logOptions.LogToKafka` (log.go:68). -/
def logOptions.LogToKafka (lo : logOptions) : Bool :=
  !(lo.KafkaBrokers == "" && lo.KafkaTopic == "")

/-- The method `logOptions.LogToSyslog` (log.go:72). -/
def logOptions.LogToSyslog (lo : logOptions) : Bool :=
  lo.SyslogFacility != "" && lo.SyslogPriority != ""

/-- The method `logOptions.LogToFluentd` (log.go:76). -/
def logOptions.LogToFluentd (lo : logOptions) : Bool := lo.FluentdSocket != ""

/-- The channels `logConn` makes, one per sink: `stdoutChan`, `fileChan`, `kafkaChan`,
`syslogChan` and `fluentdlogChan`. -/
inductive Sink where
  | stdoutChan
  | fileChan
  | kafkaChan
  | syslogChan
  | fluentdlogChan
deriving DecidableEq

/-- An operation of `logConn` on a sink channel: a send, or the close. -/
inductive ChanEvent where
  | send (logChan : Sink) (message : DNSLogEntry)
  | close (logChan : Sink)
deriving DecidableEq

/-- The slice `logs` that `logConn` builds (log.go:161-196). -/
def logConnSinks (opts : logOptions) : List Sink :=
  (if opts.LogToStdout then [Sink.stdoutChan] else [])
    ++ (if opts.LogToFile then [Sink.fileChan] else [])
    ++ (if opts.LogToKafka then [Sink.kafkaChan] else [])
    ++ (if opts.LogToSyslog then [Sink.syslogChan] else [])
    ++ (if opts.LogToFluentd then [Sink.fluentdlogChan] else [])

/-- The inner loop `for _, logChan := range logs { logChan <- message }`. -/
def logConnSend (message : DNSLogEntry) : List Sink → List ChanEvent
  | [] => []
  | logChan :: logs => ChanEvent.send logChan message :: logConnSend message logs

/-- The loop `for message := range logC` of `logConn` (log.go:203-207) over the
messages received before the channel is closed. -/
def logConnDispatch (logs : List Sink) : List DNSLogEntry → List ChanEvent
  | [] => []
  | message :: logC => logConnSend message logs ++ logConnDispatch logs logC

/-- The loop `for _, logChan := range logs { close(logChan) }` (log.go:210-212). -/
def logConnClose : List Sink → List ChanEvent
  | [] => []
  | logChan :: logs => ChanEvent.close logChan :: logConnClose logs

/-- The function `logConn` (log.go:158) on an inbound channel that delivers `logC` and
is then closed: its operations on the sink channels, in order. -/
def logConn (logC : List DNSLogEntry) (opts : logOptions) : List ChanEvent :=
  logConnDispatch (logConnSinks opts) logC ++ logConnClose (logConnSinks opts)

/-- The messages sent on one sink channel, in order. -/
def sentOn (c : Sink) : List ChanEvent → List DNSLogEntry
  | [] => []
  | ChanEvent.send c2 message :: rest =>
    if c2 = c then message :: sentOn c rest else sentOn c rest
  | ChanEvent.close _ :: rest => sentOn c rest

/-- The number of times one sink channel is closed. -/
def closesOf (c : Sink) : List ChanEvent → Nat
  | [] => 0
  | ChanEvent.send _ _ :: rest => closesOf c rest
  | ChanEvent.close c2 :: rest => if c2 = c then closesOf c rest + 1 else closesOf c rest

/-- The constants `syslog.LOG_EMERG` to `syslog.LOG_DEBUG` of the Go library. -/
def LOG_EMERG : Nat := 0
/-- The constant `syslog.LOG_ALERT`. -/
def LOG_ALERT : Nat := 1
/-- The constant `syslog.LOG_CRIT`. -/
def LOG_CRIT : Nat := 2
/-- The constant `syslog.LOG_ERR`. -/
def LOG_ERR : Nat := 3
/-- The constant `syslog.LOG_WARNING`. -/
def LOG_WARNING : Nat := 4
/-- The constant `syslog.LOG_NOTICE`. -/
def LOG_NOTICE : Nat := 5
/-- The constant `syslog.LOG_INFO`. -/
def LOG_INFO : Nat := 6
/-- The constant `syslog.LOG_DEBUG`. -/
def LOG_DEBUG : Nat := 7
/-- The constant `syslog.LOG_KERN`, the facility number 0 shifted left by 3. -/
def LOG_KERN : Nat := 0
/-- The constant `syslog.LOG_USER`. -/
def LOG_USER : Nat := 8
/-- The constant `syslog.LOG_MAIL`. -/
def LOG_MAIL : Nat := 16
/-- The constant `syslog.LOG_DAEMON`. -/
def LOG_DAEMON : Nat := 24
/-- The constant `syslog.LOG_AUTH`. -/
def LOG_AUTH : Nat := 32
/-- The constant `syslog.LOG_SYSLOG`. -/
def LOG_SYSLOG : Nat := 40
/-- The constant `syslog.LOG_LPR`. -/
def LOG_LPR : Nat := 48
/-- The constant `syslog.LOG_NEWS`. -/
def LOG_NEWS : Nat := 56
/-- The constant `syslog.LOG_UUCP`. -/
def LOG_UUCP : Nat := 64
/-- The constant `syslog.LOG_CRON`. -/
def LOG_CRON : Nat := 72
/-- The constant `syslog.LOG_AUTHPRIV`. -/
def LOG_AUTHPRIV : Nat := 80
/-- The constant `syslog.LOG_FTP`. -/
def LOG_FTP : Nat := 88
/-- The constant `syslog.LOG_LOCAL0`, the facility number 16 shifted left by 3. -/
def LOG_LOCAL0 : Nat := 128
/-- The constant `syslog.LOG_LOCAL1`. -/
def LOG_LOCAL1 : Nat := 136
/-- The constant `syslog.LOG_LOCAL2`. -/
def LOG_LOCAL2 : Nat := 144
/-- The constant `syslog.LOG_LOCAL3`. -/
def LOG_LOCAL3 : Nat := 152
/-- The constant `syslog.LOG_LOCAL4`. -/
def LOG_LOCAL4 : Nat := 160
/-- The constant `syslog.LOG_LOCAL5`. -/
def LOG_LOCAL5 : Nat := 168
/-- The constant `syslog.LOG_LOCAL6`. -/
def LOG_LOCAL6 : Nat := 176
/-- The constant `syslog.LOG_LOCAL7`. -/
def LOG_LOCAL7 : Nat := 184

/-- The function `facilityToType` (log.go:306): the priority and the error (`none` is
nil). `ToUpper` is `strings.ToUpper` of the Go library. -/
def facilityToType (ToUpper : String → String) (facility : String) : Nat × Option String :=
  let facility := ToUpper facility
  if facility = "KERN" then (LOG_KERN, none)
  else if facility = "USER" then (LOG_USER, none)
  else if facility = "MAIL" then (LOG_MAIL, none)
  else if facility = "DAEMON" then (LOG_DAEMON, none)
  else if facility = "AUTH" then (LOG_AUTH, none)
  else if facility = "SYSLOG" then (LOG_SYSLOG, none)
  else if facility = "LPR" then (LOG_LPR, none)
  else if facility = "NEWS" then (LOG_NEWS, none)
  else if facility = "UUCP" then (LOG_UUCP, none)
  else if facility = "CRON" then (LOG_CRON, none)
  else if facility = "AUTHPRIV" then (LOG_AUTHPRIV, none)
  else if facility = "FTP" then (LOG_FTP, none)
  else if facility = "LOCAL0" then (LOG_LOCAL0, none)
  else if facility = "LOCAL1" then (LOG_LOCAL1, none)
  else if facility = "LOCAL2" then (LOG_LOCAL2, none)
  else if facility = "LOCAL3" then (LOG_LOCAL3, none)
  else if facility = "LOCAL4" then (LOG_LOCAL4, none)
  else if facility = "LOCAL5" then (LOG_LOCAL5, none)
  else if facility = "LOCAL6" then (LOG_LOCAL6, none)
  else if facility = "LOCAL7" then (LOG_LOCAL7, none)
  else (0, some ("invalid syslog facility: " ++ facility))

/-- The function `levelToType` (log.go:354). -/
def levelToType (ToUpper : String → String) (level : String) : Nat × Option String :=
  let level := ToUpper level
  if level = "EMERG" then (LOG_EMERG, none)
  else if level = "ALERT" then (LOG_ALERT, none)
  else if level = "CRIT" then (LOG_CRIT, none)
  else if level = "ERR" then (LOG_ERR, none)
  else if level = "WARNING" then (LOG_WARNING, none)
  else if level = "NOTICE" then (LOG_NOTICE, none)
  else if level = "INFO" then (LOG_INFO, none)
  else if level = "DEBUG" then (LOG_DEBUG, none)
  else (0, some ("Unknown priority: " ++ level))

/-- The facility names of the specification (section 6) with their constants. -/
def facilityNames : List (String × Nat) :=
  [("KERN", LOG_KERN), ("USER", LOG_USER), ("MAIL", LOG_MAIL), ("DAEMON", LOG_DAEMON),
   ("AUTH", LOG_AUTH), ("SYSLOG", LOG_SYSLOG), ("LPR", LOG_LPR), ("NEWS", LOG_NEWS),
   ("UUCP", LOG_UUCP), ("CRON", LOG_CRON), ("AUTHPRIV", LOG_AUTHPRIV), ("FTP", LOG_FTP),
   ("LOCAL0", LOG_LOCAL0), ("LOCAL1", LOG_LOCAL1), ("LOCAL2", LOG_LOCAL2),
   ("LOCAL3", LOG_LOCAL3), ("LOCAL4", LOG_LOCAL4), ("LOCAL5", LOG_LOCAL5),
   ("LOCAL6", LOG_LOCAL6), ("LOCAL7", LOG_LOCAL7)]

/-- The level names of the specification (section 6) with their constants. -/
def levelNames : List (String × Nat) :=
  [("EMERG", LOG_EMERG), ("ALERT", LOG_ALERT), ("CRIT", LOG_CRIT), ("ERR", LOG_ERR),
   ("WARNING", LOG_WARNING), ("NOTICE", LOG_NOTICE), ("INFO", LOG_INFO), ("DEBUG", LOG_DEBUG)]

/-! ## signals.go: the final wait of `gracefulShutdown` -/

/-- How the final wait of `gracefulShutdown` ends: the number of one-second sleeps
made, and whether it returned on `waitTime == 0` with the channel still observed
non-empty. -/
structure Waited where
  sleeps : Nat
  timedOut : Bool
deriving DecidableEq

/-- The loop `for len(logChan) > 0` of `gracefulShutdown` (signals.go:36-43): `lens k`
is the value of `len(logChan)` at its evaluation number `k`, `waitTime` the counter
as it stands, `sleeps` the sleeps made so far; `none` when `fuel` turns of the loop
do not end it. -/
def waitLoop (lens : Nat → Nat) : Nat → Int → Nat → Nat → Option Waited
  | 0, _, _, _ => none
  | fuel + 1, waitTime, k, sleeps =>
    if lens k > 0 then
      if waitTime - 1 = 0 then some { sleeps := sleeps, timedOut := true }
      else waitLoop lens fuel (waitTime - 1) (k + 1) (sleeps + 1)
    else some { sleeps := sleeps, timedOut := false }

/-- The final wait of `gracefulShutdown` (signals.go:15, 36-43), with `waitTime`
starting at 6. -/
def gracefulShutdownWait (lens : Nat → Nat) (fuel : Nat) : Option Waited :=
  waitLoop lens fuel 6 0 0

/-! ## More sample data -/

/-- The zero value of `layers.DNS`, as a decoder that fails at once leaves it. -/
def DNS.zero : DNS where
  ID := 0
  QR := false
  OpCode := 0
  AA := false
  TC := false
  RD := false
  RA := false
  ResponseCode := 0
  Questions := []
  Answers := []
  Additionals := []

/-- Sample decoders. A payload of fewer than 12 bytes is too short for a DNS header:
it fails to decode and leaves the zero `layers.DNS`; the payloads of 12 bytes
starting with 1 and with 2 stand for the encodings of the `nxdomain` question and
response. The one-byte frame 6 stands for a TCP segment over IPv4 that also decodes
as DNS, the frame 17 for the `nxdomain` question over UDP, any other frame for one
with neither layer. -/
def sampleDecoders : Decoders where
  decodeDNS := fun b =>
    if b.length < 12 then (DNS.zero, false)
    else if b.head? = some 1 then (nxQuestion, true)
    else if b.head? = some 2 then (nxResponse, true)
    else (DNS.zero, false)
  decodePacket := fun b =>
    if b = [6] then
      { found := [LayerType.LayerTypeEthernet, LayerType.LayerTypeIPv4,
          LayerType.LayerTypeTCP, LayerType.LayerTypeDNS]
        ipv4 := { SrcIP := clientIP, DstIP := serverIP }
        ipv6 := { SrcIP := [], DstIP := [] }
        udp := { SrcPort := 0, DstPort := 0 }
        tcp := { SrcPort := 40000, DstPort := 53 }
        dns := nxQuestion }
    else if b = [17] then
      { found := [LayerType.LayerTypeEthernet, LayerType.LayerTypeIPv4,
          LayerType.LayerTypeUDP, LayerType.LayerTypeDNS]
        ipv4 := { SrcIP := clientIP, DstIP := serverIP }
        ipv6 := { SrcIP := [], DstIP := [] }
        udp := { SrcPort := 40000, DstPort := 53 }
        tcp := { SrcPort := 0, DstPort := 0 }
        dns := nxQuestion }
    else
      { found := [LayerType.LayerTypeEthernet]
        ipv4 := { SrcIP := [], DstIP := [] }
        ipv6 := { SrcIP := [], DstIP := [] }
        udp := { SrcPort := 0, DstPort := 0 }
        tcp := { SrcPort := 0, DstPort := 0 }
        dns := DNS.zero }

/-- A reassembled payload of 3 bytes on the flow from the client to the server. -/
def shortPayload : TCPDataStruct :=
  { DNSData := [0, 1, 2], IPLayer := { src := clientIP, dst := serverIP }, Length := 3 }

/-- Sample options: standard output and a log file, nothing else. -/
def sampleOptions : logOptions where
  quiet := false
  debug := false
  Filename := "/var/log/dns.log"
  FluentdSocket := ""
  MaxAge := 0
  MaxBackups := 3
  MaxSize := 100
  KafkaBrokers := ""
  KafkaTopic := ""
  SyslogFacility := ""
  SyslogPriority := ""
  SensorName := "UNKNOWN"
  closed := false

/-- A message with its opcode replaced by 0, the standard query. -/
def eraseOpCode (dns : DNS) : DNS := { dns with OpCode := 0 }

/-- A table with the opcode of every stored message replaced by 0. -/
def eraseOpCodes (m : ConnTable) : ConnTable :=
  m.map (fun kv => (kv.1, { kv.2 with entry := eraseOpCode kv.2.entry }))

/-- A stored entry with the opcode of its message replaced by 0. -/
def eraseEntry (e : DNSMapEntry) : DNSMapEntry := { e with entry := eraseOpCode e.entry }

/-- What is observed of a call of `handleDNS` apart from the opcodes kept in the
table: the records sent, the protocol string, the counters, and the table with the
opcodes replaced by 0. -/
def opCodeBlind (s : Handled) : List DNSLogEntry × String × List String × ConnTable :=
  (s.logChan, s.protocol, s.stats, eraseOpCodes s.connections)

/-- Two reassembled payloads of 12 bytes on unrelated flows: the first stands for the
`nxdomain` question seen between 10.0.0.1 and 8.8.8.8, the second for the `nxdomain`
response, same DNS id, seen between 192.168.1.7 and 1.1.1.1. -/
def tcpFrameA : TCPDataStruct :=
  { DNSData := [1, 0, 0, 0, 0, 0, 0, 0, 0, 0, 0, 0]
    IPLayer := { src := clientIP, dst := serverIP }
    Length := 12 }

/-- The second payload, on the other flow. -/
def tcpFrameB : TCPDataStruct :=
  { DNSData := [2, 0, 0, 0, 0, 0, 0, 0, 0, 0, 0, 0]
    IPLayer := { src := [1, 1, 1, 1], dst := [192, 168, 1, 7] }
    Length := 12 }

theorem toDigitsCore_acc (fuel : Nat) : ∀ (n : Nat) (ds : List Char),
    Nat.toDigitsCore 10 fuel n ds = Nat.toDigitsCore 10 fuel n [] ++ ds := by
  induction fuel with
  | zero => intro n ds; simp [Nat.toDigitsCore]
  | succ f ih =>
    intro n ds
    simp only [Nat.toDigitsCore]
    split
    · simp
    · rw [ih (n / 10) (Nat.digitChar (n % 10) :: ds), ih (n / 10) [Nat.digitChar (n % 10)]]
      simp

theorem digitChar_toNat (k : Nat) (hk : k < 10) : (Nat.digitChar k).toNat - 48 = k := by
  interval_cases k <;> rfl

theorem digitChar_ne_sep (k : Nat) (hk : k < 10) :
    Nat.digitChar k ≠ '-' ∧ Nat.digitChar k ≠ ':' := by
  interval_cases k <;> decide

theorem readDec_snoc (cs : List Char) (c : Char) :
    readDec (cs ++ [c]) = 10 * readDec cs + (c.toNat - 48) := by
  simp [readDec, List.foldl_append]

theorem readDec_toDigitsCore (fuel : Nat) : ∀ n : Nat, n < fuel →
    readDec (Nat.toDigitsCore 10 fuel n []) = n := by
  induction fuel with
  | zero => intro n h; omega
  | succ f ih =>
    intro n h
    simp only [Nat.toDigitsCore]
    split
    · have hn : n < 10 := by omega
      simp [readDec, Nat.mod_eq_of_lt hn, digitChar_toNat n hn]
    · rw [toDigitsCore_acc, readDec_snoc, ih (n / 10) (by omega),
        digitChar_toNat _ (Nat.mod_lt _ (by decide))]
      omega

theorem toDigitsCore_no_sep (fuel : Nat) : ∀ (n : Nat) (c : Char),
    c ∈ Nat.toDigitsCore 10 fuel n [] → c ≠ '-' ∧ c ≠ ':' := by
  induction fuel with
  | zero => intro n c h; simp [Nat.toDigitsCore] at h
  | succ f ih =>
    intro n c h
    simp only [Nat.toDigitsCore] at h
    split at h
    · simp only [List.mem_singleton] at h
      subst h
      exact digitChar_ne_sep _ (Nat.mod_lt _ (by decide))
    · rw [toDigitsCore_acc] at h
      rcases List.mem_append.mp h with h | h
      · exact ih _ _ h
      · simp only [List.mem_singleton] at h
        subst h
        exact digitChar_ne_sep _ (Nat.mod_lt _ (by decide))

theorem Itoa_data (n : Nat) : (Itoa n).data = Nat.toDigitsCore 10 (n + 1) n [] := rfl

theorem Itoa_injective : Function.Injective Itoa := by
  intro a b h
  have h1 : readDec (Itoa a).data = readDec (Itoa b).data := by rw [h]
  rwa [Itoa_data, Itoa_data, readDec_toDigitsCore _ _ (Nat.lt_succ_self a),
    readDec_toDigitsCore _ _ (Nat.lt_succ_self b)] at h1

theorem Itoa_no_dash (n : Nat) : '-' ∉ (Itoa n).data := by
  intro h
  exact (toDigitsCore_no_sep _ _ _ (Itoa_data n ▸ h)).1 rfl

theorem Itoa_no_colon (n : Nat) : ':' ∉ (Itoa n).data := by
  intro h
  exact (toDigitsCore_no_sep _ _ _ (Itoa_data n ▸ h)).2 rfl

/-- Two lists cut at the first occurrence of a separator agree piecewise. -/
theorem append_sep_inj {α : Type} (c : α) : ∀ (a b r s : List α), c ∉ a → c ∉ b →
    a ++ c :: r = b ++ c :: s → a = b ∧ r = s := by
  intro a
  induction a with
  | nil =>
    intro b r s _ hb h
    cases b with
    | nil => simpa using h
    | cons x xs =>
      simp only [List.nil_append, List.cons_append, List.cons.injEq] at h
      exact absurd (h.1 ▸ List.mem_cons_self _ _) hb
  | cons y ys ih =>
    intro b r s ha hb h
    cases b with
    | nil =>
      simp only [List.nil_append, List.cons_append, List.cons.injEq] at h
      exact absurd (h.1 ▸ List.mem_cons_self _ _) ha
    | cons x xs =>
      simp only [List.cons_append, List.cons.injEq] at h
      have := ih xs r s (fun m => ha (List.mem_cons_of_mem _ m))
        (fun m => hb (List.mem_cons_of_mem _ m)) h.2
      exact ⟨by rw [h.1, this.1], this.2⟩

/-- The text `id->x:y` determines its three numbers. -/
theorem key_text_inj (i x y j u v : Nat)
    (h : Itoa i ++ "->" ++ Itoa x ++ ":" ++ Itoa y = Itoa j ++ "->" ++ Itoa u ++ ":" ++ Itoa v) :
    i = j ∧ x = u ∧ y = v := by
  have hd := congrArg String.data h
  simp only [String.data_append, List.append_assoc] at hd
  simp only [List.cons_append, List.nil_append] at hd
  obtain ⟨hi, hr⟩ := append_sep_inj '-' _ _ _ _ (Itoa_no_dash i) (Itoa_no_dash j) hd
  simp only [List.cons.injEq, true_and] at hr
  obtain ⟨hx, hy⟩ := append_sep_inj ':' _ _ _ _ (Itoa_no_colon x) (Itoa_no_colon u) hr
  exact ⟨Itoa_injective (String.ext hi), Itoa_injective (String.ext hx),
    Itoa_injective (String.ext hy)⟩

/-! ## The correlation key -/

/-- C2, counterexample: for the ports 1000 and 2000, neither of them 53, the two
directions of an exchange with id 7 get different keys. -/
theorem uid_directions_differ : uid 7 1000 2000 ≠ uid 7 2000 1000 := by
  decide

/-- C2, amended: the key of a frame equals the key of the frame of the opposite
direction exactly when one of the two ports is 53 or the two ports are equal. -/
theorem uid_symmetric_iff (id a b : Nat) :
    uid id a b = uid id b a ↔ (a = 53 ∨ b = 53 ∨ a = b) := by
  unfold uid
  by_cases hb : b = 53
  · by_cases ha : a = 53
    · simp [ha, hb]
    · simp [ha, hb]
  · by_cases ha : a = 53
    · simp [ha, hb]
    · simp only [if_neg ha, if_neg hb, ha, hb, false_or]
      constructor
      · intro h
        exact (key_text_inj _ _ _ _ _ _ h).2.2
      · intro h
        rw [h]

/-- C3: two queries to port 53 get the same key only if they have the same DNS id
and the same client port (and then they do). -/
theorem uid_query_inj (i1 p1 i2 p2 : Nat) :
    uid i1 p1 53 = uid i2 p2 53 ↔ (i1 = i2 ∧ p1 = p2) := by
  unfold uid
  simp only [if_true]
  constructor
  · intro h
    have := key_text_inj _ _ _ _ _ _ h
    exact ⟨this.1, this.2.1⟩
  · rintro ⟨rfl, rfl⟩
    rfl

/-! ## The connection table -/

theorem mapGet_nil (k : String) : mapGet [] k = none := rfl

theorem mapGet_cons (a : String) (e : DNSMapEntry) (rest : ConnTable) (k : String) :
    mapGet ((a, e) :: rest) k = if a = k then some e else mapGet rest k := by
  by_cases h : a = k <;> simp [mapGet, List.find?_cons, h]

theorem mapDelete_cons (a : String) (e : DNSMapEntry) (rest : ConnTable) (k : String) :
    mapDelete ((a, e) :: rest) k
      = if a = k then mapDelete rest k else (a, e) :: mapDelete rest k := by
  by_cases h : a = k <;> simp [mapDelete, List.filter_cons, h]

theorem mapGet_mapDelete_self (m : ConnTable) (k : String) : mapGet (mapDelete m k) k = none := by
  induction m with
  | nil => rfl
  | cons kv rest ih =>
    obtain ⟨a, e⟩ := kv
    rw [mapDelete_cons]
    split
    · exact ih
    · rename_i h
      rw [mapGet_cons, if_neg h]
      exact ih

theorem mapGet_mapDelete_ne (m : ConnTable) (k k' : String) (hk : k' ≠ k) :
    mapGet (mapDelete m k) k' = mapGet m k' := by
  induction m with
  | nil => rfl
  | cons kv rest ih =>
    obtain ⟨a, e⟩ := kv
    rw [mapDelete_cons, mapGet_cons]
    split
    · rename_i h
      rw [if_neg (fun e => hk (e.symm.trans h))]
      exact ih
    · rw [mapGet_cons, ih]

theorem mapGet_mapSet_self (m : ConnTable) (k : String) (e : DNSMapEntry) :
    mapGet (mapSet m k e) k = some e := by
  rw [mapSet, mapGet_cons, if_pos rfl]

theorem mapGet_mapSet_ne (m : ConnTable) (k k' : String) (e : DNSMapEntry) (hk : k' ≠ k) :
    mapGet (mapSet m k e) k' = mapGet m k' := by
  rw [mapSet, mapGet_cons, if_neg (fun h => hk h.symm), mapGet_mapDelete_ne m k k' hk]

/-! ## Record construction -/

section Records

variable (ext : Extern) (clock : Nat → Time) (syslogPriority : String) (srcIP : IP)
  (srcPort : Nat) (dstIP : IP) (length : Int) (protocol : String) (question answer : DNS)
  (timestamp : Time)

theorem answerLoop_eq (q0 : DNSQuestion) (additionals : Bool)
    (hq : question.Questions.head? = some q0) :
    ∀ (anss : List DNSResourceRecord) (k : Nat) (logs : List DNSLogEntry),
      answerLoop ext clock syslogPriority srcIP srcPort dstIP length protocol question answer
          timestamp additionals anss k logs
        = some (logs ++ answerEntries ext clock syslogPriority srcIP srcPort dstIP length
            protocol q0 answer question timestamp additionals anss k) := by
  intro anss
  induction anss with
  | nil => intro k logs; simp [answerLoop, answerEntries]
  | cons a rest ih =>
    intro k logs
    simp only [answerLoop, hq, answerEntries]
    rw [ih]
    simp

theorem answerEntries_length (q0 : DNSQuestion) (additionals : Bool) :
    ∀ (anss : List DNSResourceRecord) (k : Nat),
      (answerEntries ext clock syslogPriority srcIP srcPort dstIP length protocol q0 answer
        question timestamp additionals anss k).length = anss.length := by
  intro anss
  induction anss with
  | nil => intro k; rfl
  | cons a rest ih => intro k; simp [answerEntries, ih]

theorem initLogEntry_error (q0 : DNSQuestion) (logs : List DNSLogEntry)
    (hq : question.Questions.head? = some q0) (hr : answer.ResponseCode ≠ 0) :
    initLogEntry ext clock syslogPriority srcIP srcPort dstIP length protocol question answer
        timestamp logs
      = some (logs ++ [errorEntry ext (clock 0) (clock 1) syslogPriority srcIP srcPort dstIP
          length (protocolAfter protocol) q0 answer question timestamp
          (decide (answer.Additionals.length ≠ 0))], protocolAfter protocol) := by
  simp only [initLogEntry, if_pos hr, hq, protocolAfter]

theorem initLogEntry_noerror (q0 : DNSQuestion) (logs : List DNSLogEntry)
    (hq : question.Questions.head? = some q0) (hr : answer.ResponseCode = 0) :
    initLogEntry ext clock syslogPriority srcIP srcPort dstIP length protocol question answer
        timestamp logs
      = some (logs ++ answerEntries ext clock syslogPriority srcIP srcPort dstIP length
          (protocolAfter protocol) q0 answer question timestamp
          (decide (answer.Additionals.length ≠ 0)) answer.Answers 0, protocolAfter protocol) := by
  simp only [initLogEntry, hr, ne_eq, not_true_eq_false, if_false, protocolAfter]
  rw [answerLoop_eq _ _ _ _ _ _ _ _ _ _ _ q0 _ hq]
  rfl

/-- With a question in the question leg, record construction returns, and appends
one record on an error code and one record per answer otherwise. -/
theorem initLogEntry_count (logs : List DNSLogEntry) (hq : question.Questions ≠ []) :
    ∃ recs, initLogEntry ext clock syslogPriority srcIP srcPort dstIP length protocol question
        answer timestamp logs = some (logs ++ recs, protocolAfter protocol)
      ∧ recs.length = if answer.ResponseCode = 0 then answer.Answers.length else 1 := by
  obtain ⟨q0, hq0⟩ : ∃ q0, question.Questions.head? = some q0 := by
    cases h : question.Questions with
    | nil => exact absurd h hq
    | cons q qs => exact ⟨q, rfl⟩
  by_cases hr : answer.ResponseCode = 0
  · exact ⟨_, initLogEntry_noerror ext clock syslogPriority srcIP srcPort dstIP length protocol
      question answer timestamp q0 logs hq0 hr, by rw [if_pos hr, answerEntries_length]⟩
  · exact ⟨_, initLogEntry_error ext clock syslogPriority srcIP srcPort dstIP length protocol
      question answer timestamp q0 logs hq0 hr, by rw [if_neg hr]; rfl⟩

end Records

/-! ## The correlator -/

section Correlator

variable (ext : Extern) (clock : Nat → Time) (conntable : ConnTable) (dns : DNS)
  (syslogPriority : String) (srcIP dstIP : IP) (srcPort dstPort : Nat) (length : Int)
  (protocol : String) (packetTime : Time) (stats : Bool)

theorem handleDNS_miss_eq (hmiss : mapGet conntable (uid dns.ID srcPort dstPort) = none) :
    handleDNS ext clock conntable dns syslogPriority srcIP dstIP srcPort dstPort length protocol
        packetTime stats
      = some { connections := mapSet conntable (uid dns.ID srcPort dstPort)
                 { entry := dns, inserted := packetTime }
               logChan := []
               protocol := protocol
               stats := [] } := by
  simp only [handleDNS, hmiss]

theorem handleDNS_hit_eq (item : DNSMapEntry)
    (hhit : mapGet conntable (uid dns.ID srcPort dstPort) = some item) :
    handleDNS ext clock conntable dns syslogPriority srcIP dstIP srcPort dstPort length protocol
        packetTime stats
      = (initLogEntry ext clock syslogPriority srcIP srcPort dstIP length protocol
          (if dns.QR then item.entry else dns) (if dns.QR then dns else item.entry)
          item.inserted []).map (fun r =>
            { connections := mapDelete conntable (uid dns.ID srcPort dstPort)
              logChan := r.1
              protocol := r.2
              stats := if stats then [if dns.QR then "log_qr" else "log_no_qr"] else [] }) := by
  simp only [handleDNS, hhit]
  cases hqr : dns.QR
  · simp only [Bool.false_eq_true, if_false]
    cases initLogEntry ext clock syslogPriority srcIP srcPort dstIP length protocol dns
      item.entry item.inserted [] <;> rfl
  · simp only [if_true]
    cases initLogEntry ext clock syslogPriority srcIP srcPort dstIP length protocol item.entry
      dns item.inserted [] <;> rfl

end Correlator

theorem uid_from_53 (id p : Nat) : uid id 53 p = uid id p 53 := by
  unfold uid
  by_cases hp : p = 53
  · simp [hp]
  · simp [hp]

section Correlator

variable (ext : Extern) (clock : Nat → Time) (conntable : ConnTable) (dns : DNS)
  (syslogPriority : String) (srcIP dstIP : IP) (srcPort dstPort : Nat) (length : Int)
  (protocol : String) (packetTime : Time) (stats : Bool)

/-- A hit whose question leg has a question returns: it sends the records built by
`initLogEntry`, one on an error code and one per answer otherwise, and deletes
the key. -/
theorem handleDNS_hit_count (item : DNSMapEntry)
    (hhit : mapGet conntable (uid dns.ID srcPort dstPort) = some item)
    (hq : (if dns.QR then item.entry else dns).Questions ≠ []) :
    ∃ recs, handleDNS ext clock conntable dns syslogPriority srcIP dstIP srcPort dstPort length
        protocol packetTime stats
          = some { connections := mapDelete conntable (uid dns.ID srcPort dstPort)
                   logChan := recs
                   protocol := protocolAfter protocol
                   stats := if stats then [if dns.QR then "log_qr" else "log_no_qr"] else [] }
      ∧ recs.length = if (if dns.QR then dns else item.entry).ResponseCode = 0
          then (if dns.QR then dns else item.entry).Answers.length else 1 := by
  obtain ⟨recs, h1, h2⟩ := initLogEntry_count ext clock syslogPriority srcIP srcPort dstIP length
    protocol (if dns.QR then item.entry else dns) (if dns.QR then dns else item.entry)
    item.inserted [] hq
  refine ⟨recs, ?_, h2⟩
  rw [handleDNS_hit_eq ext clock conntable dns syslogPriority srcIP dstIP srcPort dstPort length
    protocol packetTime stats item hhit, h1]
  simp

end Correlator

/-- C1: a question leg `Q` (QR=0, with a question) from client port `p` to port 53
and a response leg `R` (QR=1) from port 53 to port `p` with the same id, handled in
either order on a table without an entry for their key, both return, send in total
`len(R.Answers)` records when `R.ResponseCode = 0` and one record otherwise, and
leave the table without an entry for the key. -/
theorem handleDNS_pair_emits (ext : Extern) (clockQ clockR : Nat → Time) (t : ConnTable)
    (Q R : DNS) (syslogPriority : String) (cIP sIP : IP) (p : Nat) (lenQ lenR : Int)
    (protoQ protoR : String) (timeQ timeR : Time) (stats : Bool)
    (hQ : Q.QR = false) (hq : Q.Questions ≠ []) (hR : R.QR = true) (hid : Q.ID = R.ID)
    (hmiss : mapGet t (uid Q.ID p 53) = none) :
    ((handleDNS ext clockQ t Q syslogPriority cIP sIP p 53 lenQ protoQ timeQ stats).bind
        fun s1 =>
          (handleDNS ext clockR s1.connections R syslogPriority sIP cIP 53 p lenR protoR timeR
            stats).map fun s2 =>
              ((s1.logChan ++ s2.logChan).length, mapGet s2.connections (uid Q.ID p 53)))
        = some (if R.ResponseCode = 0 then R.Answers.length else 1, none)
    ∧ ((handleDNS ext clockR t R syslogPriority sIP cIP 53 p lenR protoR timeR stats).bind
        fun s1 =>
          (handleDNS ext clockQ s1.connections Q syslogPriority cIP sIP p 53 lenQ protoQ timeQ
            stats).map fun s2 =>
              ((s1.logChan ++ s2.logChan).length, mapGet s2.connections (uid Q.ID p 53)))
        = some (if R.ResponseCode = 0 then R.Answers.length else 1, none) := by
  have hkey : uid R.ID 53 p = uid Q.ID p 53 := by rw [← hid, uid_from_53]
  constructor
  · rw [handleDNS_miss_eq ext clockQ t Q syslogPriority cIP sIP p 53 lenQ protoQ timeQ stats
      hmiss]
    simp only [Option.some_bind]
    have hhit : mapGet (mapSet t (uid Q.ID p 53) { entry := Q, inserted := timeQ })
        (uid R.ID 53 p) = some { entry := Q, inserted := timeQ } := by
      rw [hkey, mapGet_mapSet_self]
    obtain ⟨recs, h1, h2⟩ := handleDNS_hit_count ext clockR _ R syslogPriority sIP cIP 53 p lenR
      protoR timeR stats _ hhit (by simpa [hR] using hq)
    rw [h1]
    simp only [Option.map_some', List.nil_append, hkey, mapGet_mapDelete_self]
    simp only [hR, if_true] at h2
    rw [h2]
  · have hmiss' : mapGet t (uid R.ID 53 p) = none := by rw [hkey]; exact hmiss
    rw [handleDNS_miss_eq ext clockR t R syslogPriority sIP cIP 53 p lenR protoR timeR stats
      hmiss']
    simp only [Option.some_bind]
    have hhit : mapGet (mapSet t (uid R.ID 53 p) { entry := R, inserted := timeR })
        (uid Q.ID p 53) = some { entry := R, inserted := timeR } := by
      rw [hkey, mapGet_mapSet_self]
    obtain ⟨recs, h1, h2⟩ := handleDNS_hit_count ext clockQ _ Q syslogPriority cIP sIP p 53 lenQ
      protoQ timeQ stats _ hhit (by simpa [hQ] using hq)
    rw [h1]
    simp only [Option.map_some', List.nil_append, mapGet_mapDelete_self]
    simp only [hQ, Bool.false_eq_true, if_false] at h2
    rw [h2]

/-- C1, witness: the `nxdomain` exchange (response code 3) from client port 40000,
on the empty table. -/
theorem handleDNS_pair_emits_witness :
    ((handleDNS sampleExtern sampleClock [] nxQuestion "DEBUG" clientIP serverIP 40000 53 86
          "packet" 1000 false).bind
        fun s1 =>
          (handleDNS sampleExtern sampleClock s1.connections nxResponse "DEBUG" serverIP
            clientIP 53 40000 161 "packet" 2000 false).map fun s2 =>
              ((s1.logChan ++ s2.logChan).length,
                mapGet s2.connections (uid nxQuestion.ID 40000 53)))
        = some (if nxResponse.ResponseCode = 0 then nxResponse.Answers.length else 1, none)
    ∧ ((handleDNS sampleExtern sampleClock [] nxResponse "DEBUG" serverIP clientIP 53 40000 161
          "packet" 2000 false).bind
        fun s1 =>
          (handleDNS sampleExtern sampleClock s1.connections nxQuestion "DEBUG" clientIP
            serverIP 40000 53 86 "packet" 1000 false).map fun s2 =>
              ((s1.logChan ++ s2.logChan).length,
                mapGet s2.connections (uid nxQuestion.ID 40000 53)))
        = some (if nxResponse.ResponseCode = 0 then nxResponse.Answers.length else 1, none) :=
  handleDNS_pair_emits sampleExtern sampleClock sampleClock [] nxQuestion nxResponse "DEBUG"
    clientIP serverIP 40000 86 161 "packet" "packet" 1000 2000 false rfl (by decide) rfl rfl rfl

/-- C4, at the failing input: the response 8.8.8.8:53 -> 10.0.0.1:40000 of the
`nxdomain` exchange is handled first and its question 10.0.0.1:40000 -> 8.8.8.8:53
second. The one record sent has Server = 10.0.0.1, the destination of the response
leg, and Client = 8.8.8.8, its source. -/
theorem handleDNS_response_first_addresses :
    ((handleDNS sampleExtern sampleClock [] nxResponse "DEBUG" serverIP clientIP 53 40000 161
          "packet" 1000 false).bind
        fun s1 =>
          (handleDNS sampleExtern sampleClock s1.connections nxQuestion "DEBUG" clientIP
            serverIP 40000 53 86 "packet" 2000 false).map fun s2 =>
              s2.logChan.map fun e => (e.Server, e.Client))
      = some [(clientIP, serverIP)] := by
  decide

/-- C5, at the failing input: the question 10.0.0.1:40000 -> 8.8.8.8:53 of the
`nxdomain` exchange is handled first and its response 8.8.8.8:53 -> 10.0.0.1:40000
second. The one record sent has ClientPort = 53, the port of the server, not the
client port 40000. -/
theorem handleDNS_question_first_port :
    ((handleDNS sampleExtern sampleClock [] nxQuestion "DEBUG" clientIP serverIP 40000 53 86
          "packet" 1000 false).bind
        fun s1 =>
          (handleDNS sampleExtern sampleClock s1.connections nxResponse "DEBUG" serverIP
            clientIP 53 40000 161 "packet" 2000 false).map fun s2 =>
              s2.logChan.map fun e => e.ClientPort)
      = some [53] := by
  decide

/-- C6: on a miss `handleDNS` returns, sends nothing on the log channel, and leaves
the key mapped to an entry holding the observed message with `inserted` equal to
the packet time passed in. -/
theorem handleDNS_miss_stores (ext : Extern) (clock : Nat → Time) (conntable : ConnTable)
    (dns : DNS) (syslogPriority : String) (srcIP dstIP : IP) (srcPort dstPort : Nat)
    (length : Int) (protocol : String) (packetTime : Time) (stats : Bool)
    (hmiss : mapGet conntable (uid dns.ID srcPort dstPort) = none) :
    ∃ s, handleDNS ext clock conntable dns syslogPriority srcIP dstIP srcPort dstPort length
        protocol packetTime stats = some s
      ∧ s.logChan = []
      ∧ mapGet s.connections (uid dns.ID srcPort dstPort)
          = some { entry := dns, inserted := packetTime } := by
  refine ⟨_, handleDNS_miss_eq ext clock conntable dns syslogPriority srcIP dstIP srcPort
    dstPort length protocol packetTime stats hmiss, rfl, ?_⟩
  exact mapGet_mapSet_self _ _ _

/-- C6, witness: the `nxdomain` question on the empty table. -/
theorem handleDNS_miss_stores_witness :
    ∃ s, handleDNS sampleExtern sampleClock [] nxQuestion "DEBUG" clientIP serverIP 40000 53 86
        "packet" 1000 false = some s
      ∧ s.logChan = []
      ∧ mapGet s.connections (uid nxQuestion.ID 40000 53)
          = some { entry := nxQuestion, inserted := 1000 } :=
  handleDNS_miss_stores sampleExtern sampleClock [] nxQuestion "DEBUG" clientIP serverIP 40000
    53 86 "packet" 1000 false rfl

/-- C7: on a hit the records sent are those `initLogEntry` builds from the empty
slice with question = the stored leg and response = the new leg when the new leg
has QR=1, and with question = the new leg and response = the stored leg when it has
QR=0; in both cases the timestamp passed is the stored entry's insertion time (and
`handleDNS` panics exactly when that call does). -/
theorem handleDNS_hit_legs (ext : Extern) (clock : Nat → Time) (conntable : ConnTable)
    (dns : DNS) (syslogPriority : String) (srcIP dstIP : IP) (srcPort dstPort : Nat)
    (length : Int) (protocol : String) (packetTime : Time) (stats : Bool) (item : DNSMapEntry)
    (hhit : mapGet conntable (uid dns.ID srcPort dstPort) = some item) :
    (dns.QR = true →
      (handleDNS ext clock conntable dns syslogPriority srcIP dstIP srcPort dstPort length
          protocol packetTime stats).map (fun s => s.logChan)
        = (initLogEntry ext clock syslogPriority srcIP srcPort dstIP length protocol item.entry
            dns item.inserted []).map (fun r => r.1))
    ∧ (dns.QR = false →
      (handleDNS ext clock conntable dns syslogPriority srcIP dstIP srcPort dstPort length
          protocol packetTime stats).map (fun s => s.logChan)
        = (initLogEntry ext clock syslogPriority srcIP srcPort dstIP length protocol dns
            item.entry item.inserted []).map (fun r => r.1)) := by
  rw [handleDNS_hit_eq ext clock conntable dns syslogPriority srcIP dstIP srcPort dstPort length
    protocol packetTime stats item hhit]
  constructor
  · intro h
    simp [h, Function.comp_def]
  · intro h
    simp [h, Function.comp_def]

/-- C7, witness: the `nxdomain` response arriving on a table that holds its question. -/
theorem handleDNS_hit_legs_witness :
    (nxResponse.QR = true →
      (handleDNS sampleExtern sampleClock
          [(uid 0xb369 40000 53, { entry := nxQuestion, inserted := 1000 })] nxResponse "DEBUG"
          serverIP clientIP 53 40000 161 "packet" 2000 false).map (fun s => s.logChan)
        = (initLogEntry sampleExtern sampleClock "DEBUG" serverIP 53 clientIP 161 "packet"
            (DNSMapEntry.mk nxQuestion 1000).entry nxResponse
            (DNSMapEntry.mk nxQuestion 1000).inserted []).map (fun r => r.1))
    ∧ (nxResponse.QR = false →
      (handleDNS sampleExtern sampleClock
          [(uid 0xb369 40000 53, { entry := nxQuestion, inserted := 1000 })] nxResponse "DEBUG"
          serverIP clientIP 53 40000 161 "packet" 2000 false).map (fun s => s.logChan)
        = (initLogEntry sampleExtern sampleClock "DEBUG" serverIP 53 clientIP 161 "packet"
            nxResponse (DNSMapEntry.mk nxQuestion 1000).entry
            (DNSMapEntry.mk nxQuestion 1000).inserted []).map (fun r => r.1)) :=
  handleDNS_hit_legs sampleExtern sampleClock
    [(uid 0xb369 40000 53, { entry := nxQuestion, inserted := 1000 })] nxResponse "DEBUG"
    serverIP clientIP 53 40000 161 "packet" 2000 false { entry := nxQuestion, inserted := 1000 }
    (by decide)

/-- C8: on a hit `handleDNS` returns whenever the question leg has a question, and
whenever it returns the table holds no entry for the looked-up key, every other
key maps to the same entry as before, and the next leg with that key is a miss
that sends no record. -/
theorem handleDNS_hit_removes (ext : Extern) (clock : Nat → Time) (conntable : ConnTable)
    (dns : DNS) (syslogPriority : String) (srcIP dstIP : IP) (srcPort dstPort : Nat)
    (length : Int) (protocol : String) (packetTime : Time) (stats : Bool) (item : DNSMapEntry)
    (hhit : mapGet conntable (uid dns.ID srcPort dstPort) = some item) :
    ((if dns.QR then item.entry else dns).Questions ≠ [] →
      (handleDNS ext clock conntable dns syslogPriority srcIP dstIP srcPort dstPort length
        protocol packetTime stats).isSome = true)
    ∧ ∀ s, handleDNS ext clock conntable dns syslogPriority srcIP dstIP srcPort dstPort length
        protocol packetTime stats = some s →
      mapGet s.connections (uid dns.ID srcPort dstPort) = none
      ∧ (∀ k, k ≠ uid dns.ID srcPort dstPort → mapGet s.connections k = mapGet conntable k)
      ∧ ∀ (ext2 : Extern) (clock2 : Nat → Time) (dns2 : DNS) (prio2 : String) (src2 dst2 : IP)
          (sport2 dport2 : Nat) (len2 : Int) (proto2 : String) (time2 : Time) (stats2 : Bool),
          uid dns2.ID sport2 dport2 = uid dns.ID srcPort dstPort →
          ∃ s2, handleDNS ext2 clock2 s.connections dns2 prio2 src2 dst2 sport2 dport2 len2
              proto2 time2 stats2 = some s2 ∧ s2.logChan = [] := by
  constructor
  · intro hq
    obtain ⟨recs, h1, _⟩ := handleDNS_hit_count ext clock conntable dns syslogPriority srcIP
      dstIP srcPort dstPort length protocol packetTime stats item hhit hq
    rw [h1]
    rfl
  · intro s hs
    rw [handleDNS_hit_eq ext clock conntable dns syslogPriority srcIP dstIP srcPort dstPort
      length protocol packetTime stats item hhit] at hs
    obtain ⟨r, _, hr⟩ := Option.map_eq_some'.mp hs
    subst hr
    refine ⟨mapGet_mapDelete_self _ _, fun k hk => mapGet_mapDelete_ne _ _ _ hk, ?_⟩
    intro ext2 clock2 dns2 prio2 src2 dst2 sport2 dport2 len2 proto2 time2 stats2 hkey
    have hmiss : mapGet (mapDelete conntable (uid dns.ID srcPort dstPort))
        (uid dns2.ID sport2 dport2) = none := by
      rw [hkey]
      exact mapGet_mapDelete_self _ _
    exact ⟨_, handleDNS_miss_eq ext2 clock2 _ dns2 prio2 src2 dst2 sport2 dport2 len2 proto2
      time2 stats2 hmiss, rfl⟩

/-- C8, witness: the `nxdomain` response arriving on a table that holds its question
and the question of the `ns` exchange. -/
theorem handleDNS_hit_removes_witness :
    ((if nxResponse.QR then (DNSMapEntry.mk nxQuestion 1000).entry else nxResponse).Questions
        ≠ [] →
      (handleDNS sampleExtern sampleClock
        [(uid 0x6162 40001 53, { entry := nsQuestion, inserted := 900 }),
         (uid 0xb369 40000 53, { entry := nxQuestion, inserted := 1000 })] nxResponse "DEBUG"
        serverIP clientIP 53 40000 161 "packet" 2000 false).isSome = true)
    ∧ ∀ s, handleDNS sampleExtern sampleClock
        [(uid 0x6162 40001 53, { entry := nsQuestion, inserted := 900 }),
         (uid 0xb369 40000 53, { entry := nxQuestion, inserted := 1000 })] nxResponse "DEBUG"
        serverIP clientIP 53 40000 161 "packet" 2000 false = some s →
      mapGet s.connections (uid nxResponse.ID 53 40000) = none
      ∧ (∀ k, k ≠ uid nxResponse.ID 53 40000 → mapGet s.connections k
          = mapGet [(uid 0x6162 40001 53, { entry := nsQuestion, inserted := 900 }),
              (uid 0xb369 40000 53, { entry := nxQuestion, inserted := 1000 })] k)
      ∧ ∀ (ext2 : Extern) (clock2 : Nat → Time) (dns2 : DNS) (prio2 : String) (src2 dst2 : IP)
          (sport2 dport2 : Nat) (len2 : Int) (proto2 : String) (time2 : Time) (stats2 : Bool),
          uid dns2.ID sport2 dport2 = uid nxResponse.ID 53 40000 →
          ∃ s2, handleDNS ext2 clock2 s.connections dns2 prio2 src2 dst2 sport2 dport2 len2
              proto2 time2 stats2 = some s2 ∧ s2.logChan = [] :=
  handleDNS_hit_removes sampleExtern sampleClock
    [(uid 0x6162 40001 53, { entry := nsQuestion, inserted := 900 }),
     (uid 0xb369 40000 53, { entry := nxQuestion, inserted := 1000 })] nxResponse "DEBUG"
    serverIP clientIP 53 40000 161 "packet" 2000 false { entry := nxQuestion, inserted := 1000 }
    (by decide)

/-- C9, counterexample: the question leg `longQuestion`, with one question whose name
has 65536 bytes, and the `nxdomain` response, response code 3. The one record
appended has that name as its Question and QuestionSz = 0, not the length 65536 of
the name. -/
theorem initLogEntry_error_record_long_name :
    longQuestion.Questions ≠ []
    ∧ nxResponse.ResponseCode ≠ 0
    ∧ ∃ e, initLogEntry sampleExtern sampleClock "DEBUG" serverIP 53 clientIP 161 "packet"
          longQuestion nxResponse 1000 [] = some ([e], "udp")
        ∧ e.Question = longName
        ∧ e.Question.length = 65536
        ∧ e.QuestionSz = 0
        ∧ e.QuestionSz ≠ e.Question.length := by
  have hlen : longName.length = 65536 := List.length_replicate 65536 'a'
  refine ⟨List.cons_ne_nil _ _, by decide, _,
    initLogEntry_error sampleExtern sampleClock "DEBUG" serverIP 53 clientIP 161 "packet"
      longQuestion nxResponse 1000 { Name := longName, Type_ := 1, Class := 1 } [] rfl
      (by decide), rfl, hlen, ?_, ?_⟩
  · simp only [errorEntry, hlen]
    rfl
  · simp only [errorEntry, hlen]
    decide

/-- C9, amended: with a first question `q0` in the question leg and a non-zero response
code, `initLogEntry` returns and appends exactly one record, whatever the answer
list holds: Answer is the response code's string, AnswerType is empty, TTL and
ResponseSz are 0, ResponseCode and QueryID are the response's, Question and
QuestionType come from `q0`, and QuestionSz is `uint16(len(q0.Name))`: the length of
the name modulo 65536, which is the length itself for every name shorter than 65536
bytes. -/
theorem initLogEntry_error_record (ext : Extern) (clock : Nat → Time) (syslogPriority : String)
    (srcIP : IP) (srcPort : Nat) (dstIP : IP) (length : Int) (protocol : String)
    (question answer : DNS) (timestamp : Time) (logs : List DNSLogEntry) (q0 : DNSQuestion)
    (qs : List DNSQuestion) (hq : question.Questions = q0 :: qs)
    (hr : answer.ResponseCode ≠ 0) :
    ∃ e, initLogEntry ext clock syslogPriority srcIP srcPort dstIP length protocol question
        answer timestamp logs = some (logs ++ [e], protocolAfter protocol)
      ∧ e.Answer = ext.rcodeString answer.ResponseCode
      ∧ e.AnswerType = ""
      ∧ e.TTL = 0
      ∧ e.ResponseSz = 0
      ∧ e.ResponseCode = answer.ResponseCode
      ∧ e.QueryID = answer.ID
      ∧ e.Question = q0.Name
      ∧ e.QuestionType = TypeString q0.Type_
      ∧ e.QuestionSz = q0.Name.length % 65536
      ∧ (q0.Name.length < 65536 → e.QuestionSz = q0.Name.length) := by
  refine ⟨_, initLogEntry_error ext clock syslogPriority srcIP srcPort dstIP length protocol
    question answer timestamp q0 logs (by rw [hq]; rfl) hr, rfl, rfl, rfl, rfl, rfl, rfl, rfl,
    rfl, rfl, ?_⟩
  intro hlen
  exact Nat.mod_eq_of_lt hlen

/-- C9, witness: the `nxdomain` exchange, response code 3. -/
theorem initLogEntry_error_record_witness :
    ∃ e, initLogEntry sampleExtern sampleClock "DEBUG" serverIP 53 clientIP 161 "packet"
        nxQuestion nxResponse 1000 [] = some ([] ++ [e], protocolAfter "packet")
      ∧ e.Answer = sampleExtern.rcodeString nxResponse.ResponseCode
      ∧ e.AnswerType = ""
      ∧ e.TTL = 0
      ∧ e.ResponseSz = 0
      ∧ e.ResponseCode = nxResponse.ResponseCode
      ∧ e.QueryID = nxResponse.ID
      ∧ e.Question = (DNSQuestion.mk "asdtartfgeasf.asdfgsdf.com" 1 1).Name
      ∧ e.QuestionType = TypeString (DNSQuestion.mk "asdtartfgeasf.asdfgsdf.com" 1 1).Type_
      ∧ e.QuestionSz = (DNSQuestion.mk "asdtartfgeasf.asdfgsdf.com" 1 1).Name.length % 65536
      ∧ ((DNSQuestion.mk "asdtartfgeasf.asdfgsdf.com" 1 1).Name.length < 65536 →
          e.QuestionSz = (DNSQuestion.mk "asdtartfgeasf.asdfgsdf.com" 1 1).Name.length) :=
  initLogEntry_error_record sampleExtern sampleClock "DEBUG" serverIP 53 clientIP 161 "packet"
    nxQuestion nxResponse 1000 [] { Name := "asdtartfgeasf.asdfgsdf.com", Type_ := 1, Class := 1 }
    [] rfl (by decide)

section Records

variable (ext : Extern) (clock : Nat → Time) (syslogPriority : String) (srcIP : IP)
  (srcPort : Nat) (dstIP : IP) (length : Int) (protocol : String) (question answer : DNS)
  (timestamp : Time)

theorem answerEntries_answer_fields (q0 : DNSQuestion) (additionals : Bool) :
    ∀ (anss : List DNSResourceRecord) (k : Nat),
      (answerEntries ext clock syslogPriority srcIP srcPort dstIP length protocol q0 answer
          question timestamp additionals anss k).map
          (fun e => (e.Answer, e.AnswerType, e.TTL, e.ResponseSz))
        = anss.map (fun r => (RRString ext r, TypeString r.Type_, r.TTL, r.DataLength)) := by
  intro anss
  induction anss with
  | nil => intro k; rfl
  | cons a rest ih =>
    intro k
    simp only [answerEntries, List.map_cons, ih]
    rfl

theorem answerEntries_question_fields (q0 : DNSQuestion) (additionals : Bool) :
    ∀ (anss : List DNSResourceRecord) (k : Nat) (e : DNSLogEntry),
      e ∈ answerEntries ext clock syslogPriority srcIP srcPort dstIP length protocol q0 answer
          question timestamp additionals anss k →
      e.QueryID = answer.ID ∧ e.Question = q0.Name ∧ e.QuestionType = TypeString q0.Type_ := by
  intro anss
  induction anss with
  | nil => intro k e h; simp [answerEntries] at h
  | cons a rest ih =>
    intro k e h
    simp only [answerEntries, List.mem_cons] at h
    rcases h with h | h
    · subst h
      exact ⟨rfl, rfl, rfl⟩
    · exact ih _ _ h

end Records

/-- C10: with a first question `q0` in the question leg, response code 0 and the
answer list `[r1..rn]`, `initLogEntry` returns and appends exactly `n` records in
answer-list order, the i-th with Answer = RRString(ri), AnswerType =
TypeString(ri.Type), TTL = ri.TTL and ResponseSz = ri.DataLength, all with the
response's id and the name and type of `q0`; with no answer it appends nothing. -/
theorem initLogEntry_answer_records (ext : Extern) (clock : Nat → Time)
    (syslogPriority : String) (srcIP : IP) (srcPort : Nat) (dstIP : IP) (length : Int)
    (protocol : String) (question answer : DNS) (timestamp : Time) (logs : List DNSLogEntry)
    (q0 : DNSQuestion) (qs : List DNSQuestion) (hq : question.Questions = q0 :: qs)
    (hr : answer.ResponseCode = 0) :
    ∃ recs, initLogEntry ext clock syslogPriority srcIP srcPort dstIP length protocol question
        answer timestamp logs = some (logs ++ recs, protocolAfter protocol)
      ∧ recs.length = answer.Answers.length
      ∧ recs.map (fun e => (e.Answer, e.AnswerType, e.TTL, e.ResponseSz))
          = answer.Answers.map
              (fun r => (RRString ext r, TypeString r.Type_, r.TTL, r.DataLength))
      ∧ (∀ e ∈ recs, e.QueryID = answer.ID ∧ e.Question = q0.Name
          ∧ e.QuestionType = TypeString q0.Type_)
      ∧ (answer.Answers = [] → recs = []) := by
  refine ⟨_, initLogEntry_noerror ext clock syslogPriority srcIP srcPort dstIP length protocol
    question answer timestamp q0 logs (by rw [hq]; rfl) hr, ?_, ?_, ?_, ?_⟩
  · exact answerEntries_length _ _ _ _ _ _ _ _ _ _ _ _ _ _ _
  · exact answerEntries_answer_fields _ _ _ _ _ _ _ _ _ _ _ _ _ _ _
  · exact answerEntries_question_fields _ _ _ _ _ _ _ _ _ _ _ _ _ _ _
  · intro h
    rw [h]
    rfl

/-- C10, witness: the `ns` exchange, four name-server records. -/
theorem initLogEntry_answer_records_witness :
    ∃ recs, initLogEntry sampleExtern sampleClock "DEBUG" serverIP 53 clientIP 164 "packet"
        nsQuestion nsResponse 1000 [] = some ([] ++ recs, protocolAfter "packet")
      ∧ recs.length = nsResponse.Answers.length
      ∧ recs.map (fun e => (e.Answer, e.AnswerType, e.TTL, e.ResponseSz))
          = nsResponse.Answers.map
              (fun r => (RRString sampleExtern r, TypeString r.Type_, r.TTL, r.DataLength))
      ∧ (∀ e ∈ recs, e.QueryID = nsResponse.ID
          ∧ e.Question = (DNSQuestion.mk "google.com" 2 1).Name
          ∧ e.QuestionType = TypeString (DNSQuestion.mk "google.com" 2 1).Type_)
      ∧ (nsResponse.Answers = [] → recs = []) :=
  initLogEntry_answer_records sampleExtern sampleClock "DEBUG" serverIP 53 clientIP 164 "packet"
    nsQuestion nsResponse 1000 [] { Name := "google.com", Type_ := 2, Class := 1 } [] rfl rfl

/-! ## Record construction: the shape of every result -/

section Shape

variable (ext : Extern) (clock : Nat → Time) (syslogPriority : String) (srcIP : IP)
  (srcPort : Nat) (dstIP : IP) (length : Int) (protocol : String) (question answer : DNS)
  (timestamp : Time)

theorem answerEntries_getElem? (q0 : DNSQuestion) (additionals : Bool) :
    ∀ (anss : List DNSResourceRecord) (k i : Nat) (e : DNSLogEntry),
      (answerEntries ext clock syslogPriority srcIP srcPort dstIP length protocol q0 answer
        question timestamp additionals anss k)[i]? = some e →
      ∃ ans, anss[i]? = some ans ∧
        e = answerEntry ext (clock (k + 2 * i)) (clock (k + 2 * i + 1)) syslogPriority srcIP
          srcPort dstIP length protocol q0 answer question timestamp additionals ans := by
  intro anss
  induction anss with
  | nil => intro k i e h; simp [answerEntries] at h
  | cons a rest ih =>
    intro k i e h
    cases i with
    | zero =>
      simp only [answerEntries, List.getElem?_cons_zero, Option.some.injEq] at h
      exact ⟨a, by simp, h.symm⟩
    | succ j =>
      simp only [answerEntries, List.getElem?_cons_succ] at h
      obtain ⟨ans, h1, h2⟩ := ih (k + 2) j e h
      refine ⟨ans, by simpa using h1, ?_⟩
      rw [h2]
      have e1 : k + 2 + 2 * j = k + 2 * (j + 1) := by omega
      rw [e1]

theorem answerEntries_mem (q0 : DNSQuestion) (additionals : Bool)
    (anss : List DNSResourceRecord) (k : Nat) (e : DNSLogEntry)
    (h : e ∈ answerEntries ext clock syslogPriority srcIP srcPort dstIP length protocol q0
      answer question timestamp additionals anss k) :
    ∃ ans now0 now1, ans ∈ anss ∧
      e = answerEntry ext now0 now1 syslogPriority srcIP srcPort dstIP length protocol q0
        answer question timestamp additionals ans := by
  obtain ⟨i, hi⟩ := List.mem_iff_getElem?.mp h
  obtain ⟨ans, h1, h2⟩ := answerEntries_getElem? ext clock syslogPriority srcIP srcPort dstIP
    length protocol question answer timestamp q0 additionals anss k i e hi
  exact ⟨ans, _, _, List.mem_iff_getElem?.mpr ⟨i, h1⟩, h2⟩

theorem answerLoop_no_question (additionals : Bool) (hq : question.Questions.head? = none) :
    ∀ (anss : List DNSResourceRecord) (k : Nat) (logs out : List DNSLogEntry),
      answerLoop ext clock syslogPriority srcIP srcPort dstIP length protocol question answer
          timestamp additionals anss k logs = some out → out = logs := by
  intro anss k logs out h
  cases anss with
  | nil => simpa [answerLoop] using h.symm
  | cons a rest => simp [answerLoop, hq] at h

/-- Every result of `initLogEntry`: the protocol string is rewritten, and the slice
is left as it was, or gets the one error record, or gets the answer records. -/
theorem initLogEntry_shape (logs out : List DNSLogEntry) (p : String)
    (h : initLogEntry ext clock syslogPriority srcIP srcPort dstIP length protocol question
      answer timestamp logs = some (out, p)) :
    p = protocolAfter protocol ∧
    (out = logs
      ∨ (∃ q0, question.Questions.head? = some q0 ∧ answer.ResponseCode ≠ 0 ∧
          out = logs ++ [errorEntry ext (clock 0) (clock 1) syslogPriority srcIP srcPort dstIP
            length (protocolAfter protocol) q0 answer question timestamp
            (decide (answer.Additionals.length ≠ 0))])
      ∨ (∃ q0, question.Questions.head? = some q0 ∧ answer.ResponseCode = 0 ∧
          out = logs ++ answerEntries ext clock syslogPriority srcIP srcPort dstIP length
            (protocolAfter protocol) q0 answer question timestamp
            (decide (answer.Additionals.length ≠ 0)) answer.Answers 0)) := by
  cases hq : question.Questions.head? with
  | none =>
    by_cases hr : answer.ResponseCode = 0
    · simp only [initLogEntry, hr, ne_eq, not_true_eq_false, if_false, Option.map_eq_some',
        Prod.mk.injEq] at h
      obtain ⟨ls, h1, h2, h3⟩ := h
      have := answerLoop_no_question ext clock syslogPriority srcIP srcPort dstIP length _
        question answer timestamp _ hq _ _ _ _ h1
      exact ⟨h3.symm, Or.inl (by rw [← h2, this])⟩
    · simp [initLogEntry, hr, hq] at h
  | some q0 =>
    by_cases hr : answer.ResponseCode = 0
    · rw [initLogEntry_noerror ext clock syslogPriority srcIP srcPort dstIP length protocol
        question answer timestamp q0 logs hq hr] at h
      simp only [Option.some.injEq, Prod.mk.injEq] at h
      exact ⟨h.2.symm, Or.inr (Or.inr ⟨q0, rfl, hr, h.1.symm⟩)⟩
    · rw [initLogEntry_error ext clock syslogPriority srcIP srcPort dstIP length protocol
        question answer timestamp q0 logs hq hr] at h
      simp only [Option.some.injEq, Prod.mk.injEq] at h
      exact ⟨h.2.symm, Or.inr (Or.inl ⟨q0, rfl, hr, h.1.symm⟩)⟩

/-- Every result of `initLogEntry` extends the slice by records that are each the
error record or the record of one answer, built from the first question. -/
theorem initLogEntry_records (logs out : List DNSLogEntry) (p : String)
    (h : initLogEntry ext clock syslogPriority srcIP srcPort dstIP length protocol question
      answer timestamp logs = some (out, p)) :
    p = protocolAfter protocol ∧ ∃ recs, out = logs ++ recs ∧ ∀ e ∈ recs,
      ∃ q0 now0 now1, question.Questions.head? = some q0 ∧
        (e = errorEntry ext now0 now1 syslogPriority srcIP srcPort dstIP length
            (protocolAfter protocol) q0 answer question timestamp
            (decide (answer.Additionals.length ≠ 0))
          ∨ ∃ ans, ans ∈ answer.Answers ∧
            e = answerEntry ext now0 now1 syslogPriority srcIP srcPort dstIP length
              (protocolAfter protocol) q0 answer question timestamp
              (decide (answer.Additionals.length ≠ 0)) ans) := by
  obtain ⟨hp, hs⟩ := initLogEntry_shape ext clock syslogPriority srcIP srcPort dstIP length
    protocol question answer timestamp logs out p h
  refine ⟨hp, ?_⟩
  rcases hs with hs | ⟨q0, hq, _, hs⟩ | ⟨q0, hq, _, hs⟩
  · exact ⟨[], by simp [hs], fun e he => by simp at he⟩
  · refine ⟨_, hs, fun e he => ?_⟩
    simp only [List.mem_singleton] at he
    exact ⟨q0, _, _, hq, Or.inl he⟩
  · refine ⟨_, hs, fun e he => ?_⟩
    obtain ⟨ans, now0, now1, h1, h2⟩ := answerEntries_mem ext clock syslogPriority srcIP srcPort
      dstIP length _ question answer timestamp q0 _ _ _ e he
    exact ⟨q0, now0, now1, hq, Or.inr ⟨ans, h1, h2⟩⟩

end Shape

/-- C11: `initLogEntry` returns whenever the question leg has a question, and every
record it appends, the error record and the answer records alike, has Additionals =
(the response has an additional record), Truncated = the response's TC,
AuthoritativeAnswer = the response's AA, RecursionDesired = the question leg's RD,
RecursionAvailable = the question leg's RA and Level = the priority passed in. -/
theorem initLogEntry_header_fields (ext : Extern) (clock : Nat → Time) (syslogPriority : String)
    (srcIP : IP) (srcPort : Nat) (dstIP : IP) (length : Int) (protocol : String)
    (question answer : DNS) (timestamp : Time) (logs : List DNSLogEntry) :
    (question.Questions ≠ [] →
      (initLogEntry ext clock syslogPriority srcIP srcPort dstIP length protocol question
        answer timestamp logs).isSome = true)
    ∧ ∀ out p, initLogEntry ext clock syslogPriority srcIP srcPort dstIP length protocol
        question answer timestamp logs = some (out, p) →
      ∃ recs, out = logs ++ recs ∧ ∀ e ∈ recs,
        e.Additionals = decide (0 < answer.Additionals.length)
        ∧ e.Truncated = answer.TC
        ∧ e.AuthoritativeAnswer = answer.AA
        ∧ e.RecursionDesired = question.RD
        ∧ e.RecursionAvailable = question.RA
        ∧ e.Level = syslogPriority := by
  constructor
  · intro hq
    obtain ⟨recs, h, _⟩ := initLogEntry_count ext clock syslogPriority srcIP srcPort dstIP length
      protocol question answer timestamp logs hq
    rw [h]
    rfl
  · intro out p h
    obtain ⟨_, recs, hout, hrecs⟩ := initLogEntry_records ext clock syslogPriority srcIP srcPort
      dstIP length protocol question answer timestamp logs out p h
    refine ⟨recs, hout, fun e he => ?_⟩
    have hadd : decide (answer.Additionals.length ≠ 0) = decide (0 < answer.Additionals.length) := by
      rw [decide_eq_decide]
      omega
    obtain ⟨q0, now0, now1, _, he | ⟨ans, _, he⟩⟩ := hrecs e he
    · subst he
      exact ⟨hadd, rfl, rfl, rfl, rfl, rfl⟩
    · subst he
      exact ⟨hadd, rfl, rfl, rfl, rfl, rfl⟩

theorem SubNanoseconds_def (t u : Int) :
    SubNanoseconds t u
      = if t - u > (9223372036854775807 : Int) then (9223372036854775807 : Int)
        else if t - u < (-9223372036854775808 : Int) then (-9223372036854775808 : Int)
        else t - u := rfl

theorem SubNanoseconds_nonneg (t u : Int) (h : u ≤ t) : 0 ≤ SubNanoseconds t u := by
  rw [SubNanoseconds_def]
  split
  · decide
  · split
    · omega
    · omega

theorem SubNanoseconds_exact (t u : Int) (h1 : -9223372036854775808 ≤ t - u)
    (h2 : t - u ≤ 9223372036854775807) : SubNanoseconds t u = t - u := by
  rw [SubNanoseconds_def, if_neg (by omega), if_neg (by omega)]

/-- The record number `i` that `initLogEntry` appends to the empty slice has for
Elapsed the clock reading number `2 * i + 1` minus the timestamp passed in. -/
theorem initLogEntry_elapsed (ext : Extern) (clock : Nat → Time) (syslogPriority : String)
    (srcIP : IP) (srcPort : Nat) (dstIP : IP) (length : Int) (protocol : String)
    (question answer : DNS) (timestamp : Time) (out : List DNSLogEntry) (p : String)
    (h : initLogEntry ext clock syslogPriority srcIP srcPort dstIP length protocol question
      answer timestamp [] = some (out, p)) (i : Nat) (e : DNSLogEntry) (he : out[i]? = some e) :
    e.Elapsed = SubNanoseconds (clock (2 * i + 1)) timestamp := by
  obtain ⟨_, hs⟩ := initLogEntry_shape ext clock syslogPriority srcIP srcPort dstIP length
    protocol question answer timestamp [] out p h
  rcases hs with hs | ⟨q0, _, _, hs⟩ | ⟨q0, _, _, hs⟩
  · rw [hs] at he
    simp at he
  · rw [hs] at he
    cases i with
    | zero =>
      simp only [List.nil_append, List.getElem?_cons_zero, Option.some.injEq] at he
      rw [← he]
      rfl
    | succ j => simp at he
  · rw [hs, List.nil_append] at he
    obtain ⟨ans, _, h2⟩ := answerEntries_getElem? ext clock syslogPriority srcIP srcPort dstIP
      length _ question answer timestamp q0 _ _ 0 i e he
    rw [h2, Nat.zero_add]
    rfl

/-- C12, counterexample: the `nxdomain` question is stored at packet time 1000 and
its response arrives at packet time 2000. With the clock reading 5001 when the
record is built, Elapsed is 4001 and not 2000 - 1000; with the clock reading 500,
Elapsed is -500. -/
theorem handleDNS_elapsed_not_packet_delta :
    ((handleDNS sampleExtern sampleClock [] nxQuestion "DEBUG" clientIP serverIP 40000 53 86
          "packet" 1000 false).bind
        fun s1 =>
          (handleDNS sampleExtern sampleClock s1.connections nxResponse "DEBUG" serverIP
            clientIP 53 40000 161 "packet" 2000 false).map fun s2 =>
              s2.logChan.map fun e => e.Elapsed)
      = some [4001]
    ∧ (4001 : Int) ≠ 2000 - 1000
    ∧ ((handleDNS sampleExtern (fun _ => 500) [] nxQuestion "DEBUG" clientIP serverIP 40000 53
          86 "packet" 1000 false).bind
        fun s1 =>
          (handleDNS sampleExtern (fun _ => 500) s1.connections nxResponse "DEBUG" serverIP
            clientIP 53 40000 161 "packet" 2000 false).map fun s2 =>
              s2.logChan.map fun e => e.Elapsed)
      = some [-500]
    ∧ (-500 : Int) < 0 := by
  decide

/-- C12, amended: on a hit, the record number `i` that `handleDNS` sends has for
Elapsed the wall-clock reading taken for it (reading number `2 * i + 1` of
`time.Now()` in the call) minus the stored entry's insertion time, saturated to the
range of a 64-bit integer: it is the exact difference when that fits, and it is not
negative when the reading is not before the insertion time. -/
theorem handleDNS_elapsed (ext : Extern) (clock : Nat → Time) (conntable : ConnTable)
    (dns : DNS) (syslogPriority : String) (srcIP dstIP : IP) (srcPort dstPort : Nat)
    (length : Int) (protocol : String) (packetTime : Time) (stats : Bool) (item : DNSMapEntry)
    (s : Handled) (i : Nat) (e : DNSLogEntry)
    (hhit : mapGet conntable (uid dns.ID srcPort dstPort) = some item)
    (hs : handleDNS ext clock conntable dns syslogPriority srcIP dstIP srcPort dstPort length
      protocol packetTime stats = some s)
    (he : s.logChan[i]? = some e) :
    e.Elapsed = SubNanoseconds (clock (2 * i + 1)) item.inserted
    ∧ (-9223372036854775808 ≤ clock (2 * i + 1) - item.inserted →
        clock (2 * i + 1) - item.inserted ≤ 9223372036854775807 →
        e.Elapsed = clock (2 * i + 1) - item.inserted)
    ∧ (item.inserted ≤ clock (2 * i + 1) → 0 ≤ e.Elapsed) := by
  rw [handleDNS_hit_eq ext clock conntable dns syslogPriority srcIP dstIP srcPort dstPort
    length protocol packetTime stats item hhit] at hs
  obtain ⟨r, hr, hs⟩ := Option.map_eq_some'.mp hs
  subst hs
  obtain ⟨out, p⟩ := r
  have hE := initLogEntry_elapsed ext clock syslogPriority srcIP srcPort dstIP length protocol _ _
    item.inserted out p hr i e he
  refine ⟨hE, fun h1 h2 => ?_, fun h => ?_⟩
  · rw [hE, SubNanoseconds_exact _ _ h1 h2]
  · rw [hE]
    exact SubNanoseconds_nonneg _ _ h

/-- C12, witness: the `nxdomain` response arriving on a table that holds its question,
inserted at the time 1000; the record sent is `nxRecord`, built at the clock reading
5001. -/
theorem handleDNS_elapsed_witness :
    nxRecord.Elapsed
        = SubNanoseconds (sampleClock (2 * 0 + 1)) (DNSMapEntry.mk nxQuestion 1000).inserted
    ∧ (-9223372036854775808 ≤ sampleClock (2 * 0 + 1) - (DNSMapEntry.mk nxQuestion 1000).inserted →
        sampleClock (2 * 0 + 1) - (DNSMapEntry.mk nxQuestion 1000).inserted
          ≤ 9223372036854775807 →
        nxRecord.Elapsed
          = sampleClock (2 * 0 + 1) - (DNSMapEntry.mk nxQuestion 1000).inserted)
    ∧ ((DNSMapEntry.mk nxQuestion 1000).inserted ≤ sampleClock (2 * 0 + 1) →
        0 ≤ nxRecord.Elapsed) :=
  handleDNS_elapsed sampleExtern sampleClock
    [(uid 0xb369 40000 53, { entry := nxQuestion, inserted := 1000 })] nxResponse "DEBUG"
    serverIP clientIP 53 40000 161 "packet" 2000 false { entry := nxQuestion, inserted := 1000 }
    { connections := [], logChan := [nxRecord], protocol := "udp", stats := [] } 0 nxRecord
    (by decide) (by decide) rfl

/-- C13, counterexample: for a question name of 65536 bytes and the `nxdomain`
response, the one record appended has QuestionSz = 0 while its q field is 65536
bytes long. -/
theorem initLogEntry_long_name_size :
    (initLogEntry sampleExtern sampleClock "DEBUG" serverIP 53 clientIP 161 "packet"
        longQuestion nxResponse 1000 []).map
        (fun r => r.1.map (fun e => (e.QuestionSz, e.Question.length)))
      = some [(0, 65536)] := by
  rw [initLogEntry_error sampleExtern sampleClock "DEBUG" serverIP 53 clientIP 161 "packet"
    longQuestion nxResponse 1000 { Name := longName, Type_ := 1, Class := 1 } [] rfl (by decide)]
  have hlen : longName.length = 65536 := List.length_replicate 65536 'a'
  simp only [Option.map_some', List.nil_append, List.map_cons, List.map_nil, errorEntry, hlen]
  rfl

/-- C13, amended: `initLogEntry` returns whenever the question leg has a question,
and every record it appends has QuestionSz equal to the length of its q field
modulo 65536, which is that length for every name shorter than 65536 bytes. -/
theorem initLogEntry_question_size (ext : Extern) (clock : Nat → Time) (syslogPriority : String)
    (srcIP : IP) (srcPort : Nat) (dstIP : IP) (length : Int) (protocol : String)
    (question answer : DNS) (timestamp : Time) (logs : List DNSLogEntry) :
    (question.Questions ≠ [] →
      (initLogEntry ext clock syslogPriority srcIP srcPort dstIP length protocol question
        answer timestamp logs).isSome = true)
    ∧ ∀ out p, initLogEntry ext clock syslogPriority srcIP srcPort dstIP length protocol
        question answer timestamp logs = some (out, p) →
      ∃ recs, out = logs ++ recs ∧ ∀ e ∈ recs,
        e.QuestionSz = e.Question.length % 65536
        ∧ (e.Question.length < 65536 → e.QuestionSz = e.Question.length) := by
  constructor
  · intro hq
    obtain ⟨recs, h, _⟩ := initLogEntry_count ext clock syslogPriority srcIP srcPort dstIP length
      protocol question answer timestamp logs hq
    rw [h]
    rfl
  · intro out p h
    obtain ⟨_, recs, hout, hrecs⟩ := initLogEntry_records ext clock syslogPriority srcIP srcPort
      dstIP length protocol question answer timestamp logs out p h
    refine ⟨recs, hout, fun e he => ?_⟩
    obtain ⟨q0, now0, now1, _, he | ⟨ans, _, he⟩⟩ := hrecs e he
    · subst he
      exact ⟨rfl, fun hlt => Nat.mod_eq_of_lt hlt⟩
    · subst he
      exact ⟨rfl, fun hlt => Nat.mod_eq_of_lt hlt⟩

/-- C14: when the protocol tag is "packet" or "tcp", every record `initLogEntry`
appends has Proto = "udp" for the tag "packet" and Proto = "tcp" for the tag
"tcp", none has Proto = "packet", and the string behind `protocol` is left as
"udp" or "tcp" in the same way. -/
theorem initLogEntry_proto (ext : Extern) (clock : Nat → Time) (syslogPriority : String)
    (srcIP : IP) (srcPort : Nat) (dstIP : IP) (length : Int) (protocol : String)
    (question answer : DNS) (timestamp : Time) (logs : List DNSLogEntry)
    (hp : protocol = packetString ∨ protocol = tcpString) :
    (question.Questions ≠ [] →
      (initLogEntry ext clock syslogPriority srcIP srcPort dstIP length protocol question
        answer timestamp logs).isSome = true)
    ∧ ∀ out p, initLogEntry ext clock syslogPriority srcIP srcPort dstIP length protocol
        question answer timestamp logs = some (out, p) →
      p = (if protocol = packetString then udpString else tcpString)
      ∧ ∃ recs, out = logs ++ recs ∧ ∀ e ∈ recs,
          e.Proto = (if protocol = packetString then udpString else tcpString)
          ∧ e.Proto ≠ packetString := by
  have hafter : protocolAfter protocol = (if protocol = packetString then udpString else tcpString)
      ∧ protocolAfter protocol ≠ packetString := by
    rcases hp with hp | hp
    · subst hp
      exact ⟨rfl, by decide⟩
    · subst hp
      exact ⟨rfl, by decide⟩
  constructor
  · intro hq
    obtain ⟨recs, h, _⟩ := initLogEntry_count ext clock syslogPriority srcIP srcPort dstIP length
      protocol question answer timestamp logs hq
    rw [h]
    rfl
  · intro out p h
    obtain ⟨hpa, recs, hout, hrecs⟩ := initLogEntry_records ext clock syslogPriority srcIP
      srcPort dstIP length protocol question answer timestamp logs out p h
    refine ⟨by rw [hpa]; exact hafter.1, recs, hout, fun e he => ?_⟩
    obtain ⟨q0, now0, now1, _, he | ⟨ans, _, he⟩⟩ := hrecs e he
    · subst he
      exact hafter
    · subst he
      exact hafter

/-- C14, witness: the `ns` exchange of a raw packet, tag "packet". -/
theorem initLogEntry_proto_witness :
    (nsQuestion.Questions ≠ [] →
      (initLogEntry sampleExtern sampleClock "DEBUG" serverIP 53 clientIP 164 "packet"
        nsQuestion nsResponse 1000 []).isSome = true)
    ∧ ∀ out p, initLogEntry sampleExtern sampleClock "DEBUG" serverIP 53 clientIP 164 "packet"
        nsQuestion nsResponse 1000 [] = some (out, p) →
      p = (if "packet" = packetString then udpString else tcpString)
      ∧ ∃ recs, out = [] ++ recs ∧ ∀ e ∈ recs,
          e.Proto = (if "packet" = packetString then udpString else tcpString)
          ∧ e.Proto ≠ packetString :=
  initLogEntry_proto sampleExtern sampleClock "DEBUG" serverIP 53 clientIP 164 "packet"
    nsQuestion nsResponse 1000 [] (Or.inl rfl)

/-! ## TCP reassembly -/

theorem atEOF_cons_cons (d : dnsStream) (b0 b1 : Nat) (rest : List Nat) :
    d.atEOF (b0 :: b1 :: rest)
      = if rest.length < (b0 % 256) * 256 + b1 % 256 then []
        else [{ DNSData := rest.take ((b0 % 256) * 256 + b1 % 256)
                IPLayer := d.net
                Length := (b0 % 256) * 256 + b1 % 256 }] := by
  simp only [dnsStream.atEOF, Uint16, List.length_cons, List.take_succ_cons, List.take_zero,
    List.getD_cons_zero, List.getD_cons_succ, List.drop_succ_cons, List.drop_zero]
  rw [if_neg (by omega)]
  by_cases h : rest.length < (b0 % 256) * 256 + b1 % 256
  · rw [if_pos (by omega), if_pos h]
  · rw [if_neg (by omega), if_neg h]

/-- C15: on the buffer `data` at end-of-stream, with `L` the big-endian 16-bit value
of its first two bytes: nothing is sent when `len(data) < 2` or `len(data) < L + 2`;
otherwise exactly one value is sent, whose DNSData is `data[2 .. 2+L)`, of length
`L`, whose Length is `L` and whose IPLayer is the network flow of the stream. -/
theorem dnsStream_atEOF_frame (d : dnsStream) (data : List Nat) :
    ((data.length < 2 ∨ data.length < (data.getD 0 0 % 256) * 256 + data.getD 1 0 % 256 + 2) →
      d.atEOF data = [])
    ∧ (¬ (data.length < 2 ∨
          data.length < (data.getD 0 0 % 256) * 256 + data.getD 1 0 % 256 + 2) →
      d.atEOF data
          = [{ DNSData := (data.drop 2).take ((data.getD 0 0 % 256) * 256 + data.getD 1 0 % 256)
               IPLayer := d.net
               Length := (data.getD 0 0 % 256) * 256 + data.getD 1 0 % 256 }]
        ∧ ((data.drop 2).take ((data.getD 0 0 % 256) * 256 + data.getD 1 0 % 256)).length
            = (data.getD 0 0 % 256) * 256 + data.getD 1 0 % 256) := by
  match data with
  | [] => simp [dnsStream.atEOF]
  | [b0] => simp [dnsStream.atEOF]
  | b0 :: b1 :: rest =>
    rw [atEOF_cons_cons]
    simp only [List.length_cons, List.getD_cons_zero, List.getD_cons_succ, List.drop_succ_cons,
      List.drop_zero, List.length_take]
    constructor
    · intro h
      rw [if_pos (by omega)]
    · intro h
      rw [if_neg (by omega)]
      exact ⟨rfl, by omega⟩

theorem scratch_unfold :
    List.replicate 4096 0 = 0 :: 0 :: 0 :: 0 :: 0 :: 0 :: List.replicate 4090 0 := rfl

theorem loop_two_reads (d : dnsStream) (rest : List Nat) :
    d.loop [ReadResult.data [0, 3], ReadResult.data [97, 98, 99]] []
        (0 :: 0 :: 0 :: 0 :: 0 :: 0 :: rest)
      = [{ DNSData := [0, 0, 0], IPLayer := d.net, Length := 3 }] := by
  simp [dnsStream.loop, copy, dnsStream.atEOF, Uint16]
  rw [if_neg (by omega), if_neg (by omega)]

theorem loop_short_read (d : dnsStream) (rest : List Nat) :
    d.loop [ReadResult.data [0, 4, 97]] [] (0 :: 0 :: 0 :: 0 :: 0 :: 0 :: rest)
      = [{ DNSData := [97, 0, 0, 0], IPLayer := d.net, Length := 4 }] := by
  simp [dnsStream.loop, copy, dnsStream.atEOF, Uint16]
  rw [if_neg (by omega), if_neg (by omega)]

/-- C16, at the failing inputs: the stream `0 3 97 98 99` (length 3, then three
message bytes) delivered as the reads `0 3` and `97 98 99` makes `run` send the
payload `0 0 0`, where the framing rule on the bytes read gives `97 98 99`; the
stream `0 4 97`, one byte of a message of four, delivered in one read makes `run`
send the payload `97 0 0 0`, where the framing rule gives nothing. -/
theorem dnsStream_run_appends_scratch :
    sampleStream.run [ReadResult.data [0, 3], ReadResult.data [97, 98, 99]]
        = [{ DNSData := [0, 0, 0], IPLayer := sampleStream.net, Length := 3 }]
    ∧ framingRule sampleStream.net
          (bytesRead [ReadResult.data [0, 3], ReadResult.data [97, 98, 99]])
        = [{ DNSData := [97, 98, 99], IPLayer := sampleStream.net, Length := 3 }]
    ∧ sampleStream.run [ReadResult.data [0, 4, 97]]
        = [{ DNSData := [97, 0, 0, 0], IPLayer := sampleStream.net, Length := 4 }]
    ∧ framingRule sampleStream.net (bytesRead [ReadResult.data [0, 4, 97]]) = [] := by
  refine ⟨?_, by decide, ?_, by decide⟩
  · rw [dnsStream.run, scratch_unfold, loop_two_reads]
  · rw [dnsStream.run, scratch_unfold, loop_short_read]

/-! ## The shard index -/

theorem uint64_int64 (h : Nat) (hh : h < 18446744073709551616) : uint64 (int64 h) = h := by
  unfold uint64 int64
  split <;> omega

theorem uint64_natCast (n : Nat) (hn : n < 18446744073709551616) : uint64 (n : Int) = n := by
  unfold uint64
  omega

theorem int64_small (n : Nat) (hn : n < 9223372036854775808) : int64 n = n := by
  unfold int64
  rw [if_pos (by omega)]
  omega

/-- C17: for a 64-bit flow hash `h` and the shard count `N = 2 ^ k` (an `int`, so
`k ≤ 62`), the index `int(h) & (N - 1)` equals `h mod N` and lies in `[0, N)`. -/
theorem shardIndex_range (h k : Nat) (hh : h < 18446744073709551616) (hk : k ≤ 62) :
    shardIndex h ((2 : Int) ^ k) = ((h % 2 ^ k : Nat) : Int)
    ∧ 0 ≤ shardIndex h ((2 : Int) ^ k)
    ∧ shardIndex h ((2 : Int) ^ k) < (2 : Int) ^ k := by
  have hpos : 0 < 2 ^ k := Nat.pow_pos (by decide)
  have hle : 2 ^ k ≤ 2 ^ 62 := Nat.pow_le_pow_right (by decide) hk
  have h62 : (2 : Nat) ^ 62 = 4611686018427387904 := by norm_num
  have hmod : h % 2 ^ k < 2 ^ k := Nat.mod_lt _ hpos
  have hmask : ((2 : Int) ^ k - 1) = ((2 ^ k - 1 : Nat) : Int) := by
    rw [Nat.cast_sub hpos]
    push_cast
    rfl
  have hidx : shardIndex h ((2 : Int) ^ k) = ((h % 2 ^ k : Nat) : Int) := by
    unfold shardIndex andInt
    rw [uint64_int64 h hh, hmask, uint64_natCast _ (by omega), Nat.and_pow_two_sub_one_eq_mod,
      int64_small _ (by omega)]
  refine ⟨hidx, ?_, ?_⟩
  · rw [hidx]
    exact Int.natCast_nonneg _
  · rw [hidx]
    have : ((h % 2 ^ k : Nat) : Int) < ((2 ^ k : Nat) : Int) := Int.ofNat_lt.mpr hmod
    simpa using this

/-- C17, witness: a hash with the top bit set, so that `int(h)` is negative, and
eight shards. -/
theorem shardIndex_range_witness :
    shardIndex 18446744073709551613 ((2 : Int) ^ 3) = ((18446744073709551613 % 2 ^ 3 : Nat) : Int)
    ∧ 0 ≤ shardIndex 18446744073709551613 ((2 : Int) ^ 3)
    ∧ shardIndex 18446744073709551613 ((2 : Int) ^ 3) < (2 : Int) ^ 3 :=
  shardIndex_range 18446744073709551613 3 (by decide) (by decide)

/-! ## Garbage collection -/

/-- The loop of the scan removes from the table the keys of the pending entries
that are before the cutoff, and increments the counter once for each of them. -/
theorem gcLoop_eq (cutoff : Time) (stats : Bool) :
    ∀ (pending : List (String × DNSMapEntry)) (m : ConnTable) (incrs : List String),
      gcLoop cutoff stats pending m incrs
        = (m.filter (fun kv => decide (kv.1 ∉
              (pending.filter (fun e => decide (e.2.inserted < cutoff))).map Prod.fst)),
           incrs ++ (if stats then
              List.replicate (pending.filter (fun e => decide (e.2.inserted < cutoff))).length
                "cache_entries_dropped" else [])) := by
  intro pending
  induction pending with
  | nil => intro m incrs; cases stats <;> simp [gcLoop]
  | cons kv rest ih =>
    intro m incrs
    obtain ⟨key, item⟩ := kv
    by_cases hold : item.inserted < cutoff
    · simp only [gcLoop, if_pos hold, ih, mapDelete, List.filter_filter]
      have hf : List.filter (fun e => decide (e.2.inserted < cutoff)) ((key, item) :: rest)
          = (key, item) :: List.filter (fun e => decide (e.2.inserted < cutoff)) rest := by
        simp [List.filter_cons, hold]
      rw [hf]
      refine Prod.ext ?_ ?_
      · apply List.filter_congr
        intro x _
        rw [Bool.eq_iff_iff]
        simp only [Bool.and_eq_true, bne_iff_ne, ne_eq, decide_eq_true_eq, List.map_cons,
          List.mem_cons, not_or]
        tauto
      · cases stats <;> simp [List.replicate_succ]
    · simp only [gcLoop, if_neg hold, ih]
      have hf : List.filter (fun e => decide (e.2.inserted < cutoff)) ((key, item) :: rest)
          = List.filter (fun e => decide (e.2.inserted < cutoff)) rest := by
        simp [List.filter_cons, hold]
      rw [hf]

/-- Every entry that a scan leaves in the table was in it before and is not before
the cutoff. -/
theorem cleanDNSCache_remaining (conntable : ConnTable) (now : Time) (maxAge : Int)
    (stats : Bool) (kv : String × DNSMapEntry)
    (h : kv ∈ (cleanDNSCache conntable now maxAge stats).1) :
    kv ∈ conntable ∧ ¬ kv.2.inserted < now + maxAge := by
  rw [cleanDNSCache, gcLoop_eq] at h
  simp only [List.mem_filter, decide_eq_true_eq, List.mem_map, not_exists, not_and] at h
  refine ⟨h.1, fun hold => ?_⟩
  exact h.2 kv ⟨h.1, hold⟩ rfl

theorem mapGet_filter_nodup (p : DNSMapEntry → Bool) :
    ∀ (m : ConnTable), (m.map Prod.fst).Nodup → ∀ k,
      mapGet (m.filter (fun kv => p kv.2)) k = (mapGet m k).filter p := by
  intro m
  induction m with
  | nil => intro _ k; rfl
  | cons kv rest ih =>
    intro hnd k
    obtain ⟨a, e⟩ := kv
    simp only [List.map_cons, List.nodup_cons] at hnd
    rw [mapGet_cons, List.filter_cons]
    by_cases hk : a = k
    · rw [if_pos hk]
      cases hp : p e
      · simp only [Bool.false_eq_true, if_false, Option.filter, hp]
        rw [ih hnd.2 k]
        have : mapGet rest k = none := by
          cases hg : mapGet rest k with
          | none => rfl
          | some v =>
            exfalso
            apply hnd.1
            simp only [mapGet, Option.map_eq_some'] at hg
            obtain ⟨kv, h1, _⟩ := hg
            have hm := List.mem_of_find?_eq_some h1
            have hkey := List.find?_some h1
            simp only [beq_iff_eq] at hkey
            exact List.mem_map.mpr ⟨kv, hm, by rw [hkey, hk]⟩
        rw [this]
        rfl
      · simp only [if_true, mapGet_cons, if_pos hk, Option.filter, hp]
    · rw [if_neg hk]
      cases hp : p e
      · simp only [Bool.false_eq_true, if_false]
        exact ih hnd.2 k
      · simp only [if_true, mapGet_cons, if_neg hk]
        exact ih hnd.2 k

/-- C18: one scan of `cleanDNSCache` on a table (a map: its keys are distinct), at
the time `now` with the age `maxAge`, leaves exactly the entries whose `inserted` is
not before the cutoff `now + maxAge`, each key mapped to the same entry as before,
removes every entry whose `inserted` is before the cutoff, and increments the
counter of the statsd client, when there is one, once per removed entry. -/
theorem cleanDNSCache_scan (conntable : ConnTable) (now : Time) (maxAge : Int) (stats : Bool)
    (hmap : (conntable.map Prod.fst).Nodup) :
    (cleanDNSCache conntable now maxAge stats).1
        = conntable.filter (fun kv => !decide (kv.2.inserted < now + maxAge))
    ∧ (∀ k, mapGet (cleanDNSCache conntable now maxAge stats).1 k
        = (mapGet conntable k).filter (fun e => !decide (e.inserted < now + maxAge)))
    ∧ (cleanDNSCache conntable now maxAge stats).2
        = if stats then
            List.replicate
              (conntable.filter (fun kv => decide (kv.2.inserted < now + maxAge))).length
              "cache_entries_dropped"
          else [] := by
  have h1 : (cleanDNSCache conntable now maxAge stats).1
      = conntable.filter (fun kv => !decide (kv.2.inserted < now + maxAge)) := by
    rw [cleanDNSCache, gcLoop_eq]
    apply List.filter_congr
    intro kv hkv
    rw [Bool.eq_iff_iff]
    simp only [decide_eq_true_eq, List.mem_map, List.mem_filter, not_exists, not_and,
      Bool.not_eq_true', decide_eq_false_iff_not]
    constructor
    · intro h hold
      exact h kv ⟨hkv, hold⟩ rfl
    · intro h kv2 hkv2 hkey
      have : kv2 = kv := List.inj_on_of_nodup_map hmap hkv2.1 hkv hkey
      rw [this] at hkv2
      exact h hkv2.2
  refine ⟨h1, fun k => ?_, ?_⟩
  · rw [h1]
    exact mapGet_filter_nodup (fun e => !decide (e.inserted < now + maxAge)) conntable hmap k
  · rw [cleanDNSCache, gcLoop_eq]
    simp

/-- C18, witness: the sample table, with entries inserted at 900 and at 1000,
scanned at the time 1200 with the age -250. -/
theorem cleanDNSCache_scan_witness :
    (cleanDNSCache sampleTable 1200 (-250) true).1
        = sampleTable.filter (fun kv => !decide (kv.2.inserted < 1200 + -250))
    ∧ (∀ k, mapGet (cleanDNSCache sampleTable 1200 (-250) true).1 k
        = (mapGet sampleTable k).filter (fun e => !decide (e.inserted < 1200 + -250)))
    ∧ (cleanDNSCache sampleTable 1200 (-250) true).2
        = if true then
            List.replicate
              (sampleTable.filter (fun kv => decide (kv.2.inserted < 1200 + -250))).length
              "cache_entries_dropped"
          else [] :=
  cleanDNSCache_scan sampleTable 1200 (-250) true (by decide)

theorem age_le_of_not_before (now inserted maxAge : Int) (h : ¬ inserted < now + maxAge) :
    now - inserted ≤ -maxAge := by
  omega

/-- C19, counterexample: with the age -600 s and the interval 1 s (in nanoseconds), a
scan at the time 300 s leaves the entry inserted at the time 0 in the table, and
its age 300 s is more than the interval. -/
theorem cleanDNSCache_age_exceeds_interval :
    (cleanDNSCache [(uid 0xb369 40000 53, { entry := nxQuestion, inserted := 0 })]
        300000000000 (-600000000000) false).1
      = [(uid 0xb369 40000 53, { entry := nxQuestion, inserted := 0 })]
    ∧ (-600000000000 : Int) < 0
    ∧ (0 : Int) < 1000000000
    ∧ ¬ ((300000000000 : Int) - (DNSMapEntry.mk nxQuestion 0).inserted ≤ 1000000000) := by
  decide

/-- C19, amended: right after a scan run at the time `now`, every entry left in the
table satisfies `now - inserted ≤ -maxAge`: the bound is the age, not the interval of
the scans; so `now - inserted ≤ interval` holds whenever `-maxAge ≤ interval`. -/
theorem cleanDNSCache_age_bound (conntable : ConnTable) (now : Time) (maxAge interval : Int)
    (stats : Bool) :
    (∀ kv ∈ (cleanDNSCache conntable now maxAge stats).1, now - kv.2.inserted ≤ -maxAge)
    ∧ (-maxAge ≤ interval →
        ∀ kv ∈ (cleanDNSCache conntable now maxAge stats).1, now - kv.2.inserted ≤ interval) := by
  have h : ∀ kv ∈ (cleanDNSCache conntable now maxAge stats).1,
      now - kv.2.inserted ≤ -maxAge := by
    intro kv hkv
    exact age_le_of_not_before _ _ _ (cleanDNSCache_remaining conntable now maxAge stats kv hkv).2
  exact ⟨h, fun hle kv hkv => le_trans (h kv hkv) hle⟩

/-- C20: a leg handled on the empty table at the packet time `t` is stored and sends
no record; a scan run at a time `now` with `t` before `now + maxAge` leaves the table
empty (a scan has no log channel to send on); and any leg handled afterwards is a
miss that sends no record. -/
theorem handleDNS_then_gc (ext : Extern) (clock : Nat → Time) (dns : DNS)
    (syslogPriority : String) (srcIP dstIP : IP) (srcPort dstPort : Nat) (length : Int)
    (protocol : String) (t now : Time) (maxAge : Int) (stats : Bool)
    (ht : t < now + maxAge) :
    ∃ s1, handleDNS ext clock [] dns syslogPriority srcIP dstIP srcPort dstPort length protocol
        t stats = some s1
      ∧ s1.logChan = []
      ∧ mapGet s1.connections (uid dns.ID srcPort dstPort) = some { entry := dns, inserted := t }
      ∧ (cleanDNSCache s1.connections now maxAge stats).1 = []
      ∧ ∀ (ext2 : Extern) (clock2 : Nat → Time) (dns2 : DNS) (prio2 : String) (src2 dst2 : IP)
          (sport2 dport2 : Nat) (len2 : Int) (proto2 : String) (time2 : Time) (stats2 : Bool),
          ∃ s2, handleDNS ext2 clock2 (cleanDNSCache s1.connections now maxAge stats).1 dns2
              prio2 src2 dst2 sport2 dport2 len2 proto2 time2 stats2 = some s2
            ∧ s2.logChan = [] := by
  have hgc : (cleanDNSCache (mapSet [] (uid dns.ID srcPort dstPort)
      { entry := dns, inserted := t }) now maxAge stats).1 = [] := by
    simp [cleanDNSCache, mapSet, mapDelete, gcLoop, ht]
  refine ⟨_, handleDNS_miss_eq ext clock [] dns syslogPriority srcIP dstIP srcPort dstPort
    length protocol t stats rfl, rfl, mapGet_mapSet_self _ _ _, hgc, ?_⟩
  intro ext2 clock2 dns2 prio2 src2 dst2 sport2 dport2 len2 proto2 time2 stats2
  refine ⟨_, handleDNS_miss_eq ext2 clock2 _ dns2 prio2 src2 dst2 sport2 dport2 len2 proto2
    time2 stats2 ?_, rfl⟩
  rw [hgc]
  rfl

/-- C20, witness: the `nxdomain` question stored at the time 1000 and a scan at the
time 7000 with the age -5000. -/
theorem handleDNS_then_gc_witness :
    ∃ s1, handleDNS sampleExtern sampleClock [] nxQuestion "DEBUG" clientIP serverIP 40000 53 86
        "packet" 1000 false = some s1
      ∧ s1.logChan = []
      ∧ mapGet s1.connections (uid nxQuestion.ID 40000 53)
          = some { entry := nxQuestion, inserted := 1000 }
      ∧ (cleanDNSCache s1.connections 7000 (-5000) false).1 = []
      ∧ ∀ (ext2 : Extern) (clock2 : Nat → Time) (dns2 : DNS) (prio2 : String) (src2 dst2 : IP)
          (sport2 dport2 : Nat) (len2 : Int) (proto2 : String) (time2 : Time) (stats2 : Bool),
          ∃ s2, handleDNS ext2 clock2 (cleanDNSCache s1.connections 7000 (-5000) false).1 dns2
              prio2 src2 dst2 sport2 dport2 len2 proto2 time2 stats2 = some s2
            ∧ s2.logChan = [] :=
  handleDNS_then_gc sampleExtern sampleClock nxQuestion "DEBUG" clientIP serverIP 40000 53 86
    "packet" 1000 7000 (-5000) false (by decide)

/-! ## Completion of record construction -/

/-- C29: `initLogEntry` returns for every question leg with a question and every
response leg; it fails, on the access `Questions[0]`, exactly when the question leg
has no question and the response code is non-zero or the answer list is non-empty. -/
theorem initLogEntry_completes (ext : Extern) (clock : Nat → Time) (syslogPriority : String)
    (srcIP : IP) (srcPort : Nat) (dstIP : IP) (length : Int) (protocol : String)
    (question answer : DNS) (timestamp : Time) (logs : List DNSLogEntry) :
    (question.Questions ≠ [] →
      (initLogEntry ext clock syslogPriority srcIP srcPort dstIP length protocol question
        answer timestamp logs).isSome = true)
    ∧ (initLogEntry ext clock syslogPriority srcIP srcPort dstIP length protocol question
          answer timestamp logs = none
        ↔ question.Questions = [] ∧ (answer.ResponseCode ≠ 0 ∨ answer.Answers ≠ [])) := by
  have hsome : question.Questions ≠ [] →
      (initLogEntry ext clock syslogPriority srcIP srcPort dstIP length protocol question
        answer timestamp logs).isSome = true := by
    intro hq
    obtain ⟨recs, h, _⟩ := initLogEntry_count ext clock syslogPriority srcIP srcPort dstIP length
      protocol question answer timestamp logs hq
    rw [h]
    rfl
  refine ⟨hsome, ?_⟩
  constructor
  · intro hnone
    have hq : question.Questions = [] := by
      by_contra hne
      have := hsome hne
      rw [hnone] at this
      exact absurd this (by decide)
    refine ⟨hq, ?_⟩
    by_contra hno
    simp only [not_or, not_not] at hno
    simp [initLogEntry, hno.1, hno.2, answerLoop] at hnone
  · rintro ⟨hq, hr | ha⟩
    · simp [initLogEntry, hr, hq]
    · by_cases hr : answer.ResponseCode = 0
      · cases hans : answer.Answers with
        | nil => exact absurd hans ha
        | cons a rest => simp [initLogEntry, hr, hans, answerLoop, hq]
      · simp [initLogEntry, hr, hq]

/-! ## The type names -/

/-- C24: `TypeString` gives the ten mnemonics on the types 1, 28, 5, 15, 2, 12, 16,
6, 33 and 255, and the decimal rendering of every other type. -/
theorem TypeString_table (t : Nat) :
    TypeString 1 = "A" ∧ TypeString 28 = "AAAA" ∧ TypeString 5 = "CNAME"
    ∧ TypeString 15 = "MX" ∧ TypeString 2 = "NS" ∧ TypeString 12 = "PTR"
    ∧ TypeString 16 = "TXT" ∧ TypeString 6 = "SOA" ∧ TypeString 33 = "SRV"
    ∧ TypeString 255 = "ANY"
    ∧ (t ∉ [1, 28, 5, 15, 2, 12, 16, 6, 33, 255] → TypeString t = Itoa t) := by
  refine ⟨rfl, rfl, rfl, rfl, rfl, rfl, rfl, rfl, rfl, rfl, ?_⟩
  intro h
  simp only [List.mem_cons, List.mem_singleton, List.not_mem_nil, or_false, not_or] at h
  obtain ⟨h1, h2, h3, h4, h5, h6, h7, h8, h9, h10⟩ := h
  simp only [TypeString, DNSTypeA, DNSTypeAAAA, DNSTypeCNAME, DNSTypeMX, DNSTypeNS, DNSTypePTR,
    DNSTypeTXT, DNSTypeSOA, DNSTypeSRV, if_neg h1, if_neg h2, if_neg h3, if_neg h4, if_neg h5,
    if_neg h6, if_neg h7, if_neg h8, if_neg h9, if_neg h10]

theorem digitChar_isDigit (k : Nat) (hk : k < 10) : (Nat.digitChar k).isDigit = true := by
  interval_cases k <;> rfl

theorem toDigitsCore_isDigit (fuel : Nat) : ∀ (n : Nat) (c : Char),
    c ∈ Nat.toDigitsCore 10 fuel n [] → c.isDigit = true := by
  induction fuel with
  | zero => intro n c h; simp [Nat.toDigitsCore] at h
  | succ f ih =>
    intro n c h
    simp only [Nat.toDigitsCore] at h
    split at h
    · simp only [List.mem_singleton] at h
      subst h
      exact digitChar_isDigit _ (Nat.mod_lt _ (by decide))
    · rw [toDigitsCore_acc] at h
      rcases List.mem_append.mp h with h | h
      · exact ih _ _ h
      · simp only [List.mem_singleton] at h
        subst h
        exact digitChar_isDigit _ (Nat.mod_lt _ (by decide))

theorem Itoa_isDigit (n : Nat) (c : Char) (h : c ∈ (Itoa n).data) : c.isDigit = true :=
  toDigitsCore_isDigit _ _ _ (Itoa_data n ▸ h)

/-- Every type is one of the ten with a mnemonic, which has a character that is not
a digit, or is rendered in decimal. -/
theorem TypeString_cases (t : Nat) :
    (t ∈ [1, 28, 5, 15, 2, 12, 16, 6, 33, 255] ∧ ∃ c ∈ (TypeString t).data, c.isDigit = false)
    ∨ (t ∉ [1, 28, 5, 15, 2, 12, 16, 6, 33, 255] ∧ TypeString t = Itoa t) := by
  by_cases h : t ∈ [1, 28, 5, 15, 2, 12, 16, 6, 33, 255]
  · refine Or.inl ⟨h, ?_⟩
    simp only [List.mem_cons, List.mem_singleton, List.not_mem_nil, or_false] at h
    rcases h with rfl | rfl | rfl | rfl | rfl | rfl | rfl | rfl | rfl | rfl <;> decide
  · refine Or.inr ⟨h, ?_⟩
    simp only [List.mem_cons, List.mem_singleton, List.not_mem_nil, or_false, not_or] at h
    obtain ⟨h1, h2, h3, h4, h5, h6, h7, h8, h9, h10⟩ := h
    simp only [TypeString, DNSTypeA, DNSTypeAAAA, DNSTypeCNAME, DNSTypeMX, DNSTypeNS,
      DNSTypePTR, DNSTypeTXT, DNSTypeSOA, DNSTypeSRV, if_neg h1, if_neg h2, if_neg h3,
      if_neg h4, if_neg h5, if_neg h6, if_neg h7, if_neg h8, if_neg h9, if_neg h10]

/-- C27: two DNS types have the same `TypeString` exactly when they are equal: no
decimal fallback coincides with a mnemonic or with the decimal of another type. -/
theorem TypeString_inj (t1 t2 : Nat) : TypeString t1 = TypeString t2 ↔ t1 = t2 := by
  constructor
  · intro h
    rcases TypeString_cases t1 with ⟨h1, c1, hc1, hd1⟩ | ⟨h1, e1⟩
    · rcases TypeString_cases t2 with ⟨h2, _⟩ | ⟨_, e2⟩
      · simp only [List.mem_cons, List.mem_singleton, List.not_mem_nil, or_false] at h1 h2
        rcases h1 with rfl | rfl | rfl | rfl | rfl | rfl | rfl | rfl | rfl | rfl <;>
          rcases h2 with rfl | rfl | rfl | rfl | rfl | rfl | rfl | rfl | rfl | rfl <;>
          first
            | rfl
            | exact absurd h (by decide)
      · rw [h, e2] at hc1
        have := Itoa_isDigit t2 c1 hc1
        rw [hd1] at this
        exact absurd this (by decide)
    · rcases TypeString_cases t2 with ⟨_, c2, hc2, hd2⟩ | ⟨_, e2⟩
      · rw [← h, e1] at hc2
        have := Itoa_isDigit t1 c2 hc2
        rw [hd2] at this
        exact absurd this (by decide)
      · rw [e1, e2] at h
        exact Itoa_injective h
  · intro h
    rw [h]

/-! ## The syslog names -/

theorem facilityToType_known (u : String) (c : Nat) (h : (u, c) ∈ facilityNames) :
    facilityToType (fun _ => u) "" = (c, none) := by
  simp only [facilityNames, List.mem_cons, Prod.mk.injEq, List.mem_singleton,
    List.not_mem_nil, or_false] at h
  rcases h with ⟨rfl, rfl⟩ | ⟨rfl, rfl⟩ | ⟨rfl, rfl⟩ | ⟨rfl, rfl⟩ | ⟨rfl, rfl⟩ | ⟨rfl, rfl⟩
    | ⟨rfl, rfl⟩ | ⟨rfl, rfl⟩ | ⟨rfl, rfl⟩ | ⟨rfl, rfl⟩ | ⟨rfl, rfl⟩ | ⟨rfl, rfl⟩ | ⟨rfl, rfl⟩
    | ⟨rfl, rfl⟩ | ⟨rfl, rfl⟩ | ⟨rfl, rfl⟩ | ⟨rfl, rfl⟩ | ⟨rfl, rfl⟩ | ⟨rfl, rfl⟩ | ⟨rfl, rfl⟩ <;> rfl

theorem facilityToType_unknown (u : String)
    (hno : ∀ name c, (name, c) ∈ facilityNames → ¬ u = name) :
    facilityToType (fun _ => u) "" = (0, some ("invalid syslog facility: " ++ u)) := by
  have h0 : ¬ u = "KERN" := hno "KERN" LOG_KERN (by decide)
  have h1 : ¬ u = "USER" := hno "USER" LOG_USER (by decide)
  have h2 : ¬ u = "MAIL" := hno "MAIL" LOG_MAIL (by decide)
  have h3 : ¬ u = "DAEMON" := hno "DAEMON" LOG_DAEMON (by decide)
  have h4 : ¬ u = "AUTH" := hno "AUTH" LOG_AUTH (by decide)
  have h5 : ¬ u = "SYSLOG" := hno "SYSLOG" LOG_SYSLOG (by decide)
  have h6 : ¬ u = "LPR" := hno "LPR" LOG_LPR (by decide)
  have h7 : ¬ u = "NEWS" := hno "NEWS" LOG_NEWS (by decide)
  have h8 : ¬ u = "UUCP" := hno "UUCP" LOG_UUCP (by decide)
  have h9 : ¬ u = "CRON" := hno "CRON" LOG_CRON (by decide)
  have h10 : ¬ u = "AUTHPRIV" := hno "AUTHPRIV" LOG_AUTHPRIV (by decide)
  have h11 : ¬ u = "FTP" := hno "FTP" LOG_FTP (by decide)
  have h12 : ¬ u = "LOCAL0" := hno "LOCAL0" LOG_LOCAL0 (by decide)
  have h13 : ¬ u = "LOCAL1" := hno "LOCAL1" LOG_LOCAL1 (by decide)
  have h14 : ¬ u = "LOCAL2" := hno "LOCAL2" LOG_LOCAL2 (by decide)
  have h15 : ¬ u = "LOCAL3" := hno "LOCAL3" LOG_LOCAL3 (by decide)
  have h16 : ¬ u = "LOCAL4" := hno "LOCAL4" LOG_LOCAL4 (by decide)
  have h17 : ¬ u = "LOCAL5" := hno "LOCAL5" LOG_LOCAL5 (by decide)
  have h18 : ¬ u = "LOCAL6" := hno "LOCAL6" LOG_LOCAL6 (by decide)
  have h19 : ¬ u = "LOCAL7" := hno "LOCAL7" LOG_LOCAL7 (by decide)
  simp only [facilityToType, if_neg h0, if_neg h1, if_neg h2, if_neg h3, if_neg h4, if_neg h5, if_neg h6, if_neg h7, if_neg h8, if_neg h9, if_neg h10, if_neg h11, if_neg h12, if_neg h13, if_neg h14, if_neg h15, if_neg h16, if_neg h17, if_neg h18, if_neg h19]

theorem levelToType_known (u : String) (c : Nat) (h : (u, c) ∈ levelNames) :
    levelToType (fun _ => u) "" = (c, none) := by
  simp only [levelNames, List.mem_cons, Prod.mk.injEq, List.mem_singleton,
    List.not_mem_nil, or_false] at h
  rcases h with ⟨rfl, rfl⟩ | ⟨rfl, rfl⟩ | ⟨rfl, rfl⟩ | ⟨rfl, rfl⟩ | ⟨rfl, rfl⟩ | ⟨rfl, rfl⟩
    | ⟨rfl, rfl⟩ | ⟨rfl, rfl⟩ <;> rfl

theorem levelToType_unknown (u : String)
    (hno : ∀ name c, (name, c) ∈ levelNames → ¬ u = name) :
    levelToType (fun _ => u) "" = (0, some ("Unknown priority: " ++ u)) := by
  have h0 : ¬ u = "EMERG" := hno "EMERG" LOG_EMERG (by decide)
  have h1 : ¬ u = "ALERT" := hno "ALERT" LOG_ALERT (by decide)
  have h2 : ¬ u = "CRIT" := hno "CRIT" LOG_CRIT (by decide)
  have h3 : ¬ u = "ERR" := hno "ERR" LOG_ERR (by decide)
  have h4 : ¬ u = "WARNING" := hno "WARNING" LOG_WARNING (by decide)
  have h5 : ¬ u = "NOTICE" := hno "NOTICE" LOG_NOTICE (by decide)
  have h6 : ¬ u = "INFO" := hno "INFO" LOG_INFO (by decide)
  have h7 : ¬ u = "DEBUG" := hno "DEBUG" LOG_DEBUG (by decide)
  simp only [levelToType, if_neg h0, if_neg h1, if_neg h2, if_neg h3, if_neg h4, if_neg h5, if_neg h6, if_neg h7]

/-- C23: `facilityToType` and `levelToType` compare the upper-cased string with the
names of their set: on a name they return its syslog constant with a nil error, on
every other string the value 0 with an error. -/
theorem syslog_names (ToUpper : String → String) (s : String) :
    (∀ name c, (name, c) ∈ facilityNames → ToUpper s = name →
        facilityToType ToUpper s = (c, none))
    ∧ ((∀ name c, (name, c) ∈ facilityNames → ¬ ToUpper s = name) →
        facilityToType ToUpper s = (0, some ("invalid syslog facility: " ++ ToUpper s)))
    ∧ (∀ name c, (name, c) ∈ levelNames → ToUpper s = name →
        levelToType ToUpper s = (c, none))
    ∧ ((∀ name c, (name, c) ∈ levelNames → ¬ ToUpper s = name) →
        levelToType ToUpper s = (0, some ("Unknown priority: " ++ ToUpper s))) := by
  refine ⟨fun name c hmem hs => ?_, fun hno => ?_, fun name c hmem hs => ?_, fun hno => ?_⟩
  · exact facilityToType_known (ToUpper s) c (hs ▸ hmem)
  · exact facilityToType_unknown (ToUpper s) hno
  · exact levelToType_known (ToUpper s) c (hs ▸ hmem)
  · exact levelToType_unknown (ToUpper s) hno

/-! ## The final wait of the shutdown -/

theorem gracefulShutdownWait_six (lens : Nat → Nat) :
    gracefulShutdownWait lens 6
      = some (if lens 0 = 0 then { sleeps := 0, timedOut := false }
          else if lens 1 = 0 then { sleeps := 1, timedOut := false }
          else if lens 2 = 0 then { sleeps := 2, timedOut := false }
          else if lens 3 = 0 then { sleeps := 3, timedOut := false }
          else if lens 4 = 0 then { sleeps := 4, timedOut := false }
          else if lens 5 = 0 then { sleeps := 5, timedOut := false }
          else { sleeps := 5, timedOut := true }) := by
  simp only [gracefulShutdownWait, waitLoop, Nat.pos_iff_ne_zero, ne_eq, ite_not]
  by_cases h0 : lens 0 = 0
  · simp [h0]
  by_cases h1 : lens 1 = 0
  · simp [h0, h1]
  by_cases h2 : lens 2 = 0
  · simp [h0, h1, h2]
  by_cases h3 : lens 3 = 0
  · simp [h0, h1, h2, h3]
  by_cases h4 : lens 4 = 0
  · simp [h0, h1, h2, h3, h4]
  by_cases h5 : lens 5 = 0
  · simp [h0, h1, h2, h3, h4, h5]
  · simp [h0, h1, h2, h3, h4, h5]

/-- C28: for every sequence of observed channel lengths the final wait ends within
six turns of its loop: it stops at the first observation of an empty channel, after
as many sleeps as observations before it, and otherwise returns at the sixth
non-empty observation with records still queued; it sleeps at most 5 times, so at
most 6 seconds. -/
theorem gracefulShutdownWait_terminates (lens : Nat → Nat) :
    ∃ w, gracefulShutdownWait lens 6 = some w
      ∧ w.sleeps ≤ 6
      ∧ w.sleeps ≤ 5
      ∧ (∀ k, k ≤ 5 → lens k = 0 → (∀ j, j < k → lens j ≠ 0) →
          w = { sleeps := k, timedOut := false })
      ∧ ((∀ k, k ≤ 5 → lens k ≠ 0) → w = { sleeps := 5, timedOut := true }) := by
  refine ⟨_, gracefulShutdownWait_six lens, ?_, ?_, ?_, ?_⟩
  · split_ifs <;> simp
  · split_ifs <;> simp
  · intro k hk hz hbefore
    have e0 := hbefore 0
    have e1 := hbefore 1
    have e2 := hbefore 2
    have e3 := hbefore 3
    have e4 := hbefore 4
    interval_cases k
    · simp [hz]
    · simp [hz, e0]
    · simp [hz, e0, e1]
    · simp [hz, e0, e1, e2]
    · simp [hz, e0, e1, e2, e3]
    · simp [hz, e0, e1, e2, e3, e4]
  · intro hall
    simp [hall 0, hall 1, hall 2, hall 3, hall 4, hall 5]

/-! ## The fan-out -/

theorem sentOn_append (c : Sink) (xs ys : List ChanEvent) :
    sentOn c (xs ++ ys) = sentOn c xs ++ sentOn c ys := by
  induction xs with
  | nil => rfl
  | cons e rest ih =>
    cases e with
    | send c2 m =>
      by_cases h : c2 = c
      · simp [sentOn, h, ih]
      · simp [sentOn, h, ih]
    | close c2 => simp [sentOn, ih]

theorem closesOf_append (c : Sink) (xs ys : List ChanEvent) :
    closesOf c (xs ++ ys) = closesOf c xs + closesOf c ys := by
  induction xs with
  | nil => simp [closesOf]
  | cons e rest ih =>
    cases e with
    | send c2 m => simp [closesOf, ih]
    | close c2 =>
      by_cases h : c2 = c
      · simp [closesOf, h, ih]
        omega
      · simp [closesOf, h, ih]

theorem sentOn_send (c : Sink) (m : DNSLogEntry) :
    ∀ logs : List Sink, logs.Nodup →
      sentOn c (logConnSend m logs) = if c ∈ logs then [m] else [] := by
  intro logs
  induction logs with
  | nil => intro _; rfl
  | cons c2 rest ih =>
    intro hnd
    rw [List.nodup_cons] at hnd
    by_cases h : c2 = c
    · subst h
      simp [logConnSend, sentOn, ih hnd.2, hnd.1]
    · have h' : ¬ c = c2 := fun e => h e.symm
      simp [logConnSend, sentOn, h, h', ih hnd.2]

theorem closesOf_send (c : Sink) (m : DNSLogEntry) (logs : List Sink) :
    closesOf c (logConnSend m logs) = 0 := by
  induction logs with
  | nil => rfl
  | cons c2 rest ih => simpa [logConnSend, closesOf] using ih

theorem sentOn_close (c : Sink) (logs : List Sink) : sentOn c (logConnClose logs) = [] := by
  induction logs with
  | nil => rfl
  | cons c2 rest ih => simpa [logConnClose, sentOn] using ih

theorem closesOf_close (c : Sink) :
    ∀ logs : List Sink, logs.Nodup →
      closesOf c (logConnClose logs) = if c ∈ logs then 1 else 0 := by
  intro logs
  induction logs with
  | nil => intro _; rfl
  | cons c2 rest ih =>
    intro hnd
    rw [List.nodup_cons] at hnd
    by_cases h : c2 = c
    · subst h
      simp [logConnClose, closesOf, ih hnd.2, hnd.1]
    · have h' : ¬ c = c2 := fun e => h e.symm
      simp [logConnClose, closesOf, h, h', ih hnd.2]

theorem sentOn_dispatch (c : Sink) (logs : List Sink) (hnd : logs.Nodup) :
    ∀ logC : List DNSLogEntry,
      sentOn c (logConnDispatch logs logC) = if c ∈ logs then logC else [] := by
  intro logC
  induction logC with
  | nil => simp [logConnDispatch, sentOn]
  | cons m rest ih =>
    rw [logConnDispatch, sentOn_append, sentOn_send c m logs hnd, ih]
    by_cases h : c ∈ logs
    · simp [h]
    · simp [h]

theorem closesOf_dispatch (c : Sink) (logs : List Sink) :
    ∀ logC : List DNSLogEntry, closesOf c (logConnDispatch logs logC) = 0 := by
  intro logC
  induction logC with
  | nil => rfl
  | cons m rest ih => rw [logConnDispatch, closesOf_append, closesOf_send, ih]

theorem logConnSinks_nodup (opts : logOptions) : (logConnSinks opts).Nodup := by
  unfold logConnSinks
  cases opts.LogToStdout <;> cases opts.LogToFile <;> cases opts.LogToKafka <;>
    cases opts.LogToSyslog <;> cases opts.LogToFluentd <;> decide

/-- C22: for the records `logC` received before the inbound channel is closed and
every configuration, `logConn` sends on the channel of each enabled sink exactly
`logC`, in order, and closes that channel exactly once; it makes no channel for a
sink that is not enabled; and a sink is enabled exactly when its option says so. -/
theorem logConn_fanout (logC : List DNSLogEntry) (opts : logOptions) (c : Sink) :
    (c ∈ logConnSinks opts →
      sentOn c (logConn logC opts) = logC ∧ closesOf c (logConn logC opts) = 1)
    ∧ (c ∉ logConnSinks opts →
      sentOn c (logConn logC opts) = [] ∧ closesOf c (logConn logC opts) = 0)
    ∧ (Sink.stdoutChan ∈ logConnSinks opts ↔ opts.LogToStdout = true)
    ∧ (Sink.fileChan ∈ logConnSinks opts ↔ opts.LogToFile = true)
    ∧ (Sink.kafkaChan ∈ logConnSinks opts ↔ opts.LogToKafka = true)
    ∧ (Sink.syslogChan ∈ logConnSinks opts ↔ opts.LogToSyslog = true)
    ∧ (Sink.fluentdlogChan ∈ logConnSinks opts ↔ opts.LogToFluentd = true) := by
  have hnd := logConnSinks_nodup opts
  have hs : sentOn c (logConn logC opts) = if c ∈ logConnSinks opts then logC else [] := by
    rw [logConn, sentOn_append, sentOn_dispatch c _ hnd, sentOn_close, List.append_nil]
  have hc : closesOf c (logConn logC opts) = if c ∈ logConnSinks opts then 1 else 0 := by
    rw [logConn, closesOf_append, closesOf_dispatch, closesOf_close c _ hnd, Nat.zero_add]
  refine ⟨fun h => ?_, fun h => ?_, ?_, ?_, ?_, ?_, ?_⟩
  · rw [hs, hc, if_pos h, if_pos h]
    exact ⟨rfl, rfl⟩
  · rw [hs, hc, if_neg h, if_neg h]
    exact ⟨rfl, rfl⟩
  all_goals
    unfold logConnSinks
    cases opts.LogToStdout <;> cases opts.LogToFile <;> cases opts.LogToKafka <;>
      cases opts.LogToSyslog <;> cases opts.LogToFluentd <;> decide

/-! ## The opcode -/

theorem eraseOpCodes_cons (a : String) (e : DNSMapEntry) (rest : ConnTable) :
    eraseOpCodes ((a, e) :: rest) = (a, eraseEntry e) :: eraseOpCodes rest := rfl

theorem eraseEntry_idem (e : DNSMapEntry) : eraseEntry (eraseEntry e) = eraseEntry e := rfl

theorem eraseOpCodes_idem (m : ConnTable) : eraseOpCodes (eraseOpCodes m) = eraseOpCodes m := by
  induction m with
  | nil => rfl
  | cons kv rest ih =>
    obtain ⟨a, e⟩ := kv
    rw [eraseOpCodes_cons, eraseOpCodes_cons, ih, eraseEntry_idem]

theorem mapGet_eraseOpCodes (m : ConnTable) (k : String) :
    mapGet (eraseOpCodes m) k = (mapGet m k).map eraseEntry := by
  induction m with
  | nil => rfl
  | cons kv rest ih =>
    obtain ⟨a, e⟩ := kv
    rw [eraseOpCodes_cons, mapGet_cons, mapGet_cons, ih]
    split <;> rfl

theorem eraseOpCodes_mapDelete (m : ConnTable) (k : String) :
    eraseOpCodes (mapDelete m k) = mapDelete (eraseOpCodes m) k := by
  induction m with
  | nil => rfl
  | cons kv rest ih =>
    obtain ⟨a, e⟩ := kv
    rw [eraseOpCodes_cons, mapDelete_cons, mapDelete_cons]
    split
    · exact ih
    · rw [eraseOpCodes_cons, ih]

theorem eraseOpCodes_mapSet (m : ConnTable) (k : String) (e : DNSMapEntry) :
    eraseOpCodes (mapSet m k e) = mapSet (eraseOpCodes m) k (eraseEntry e) := by
  rw [mapSet, mapSet, eraseOpCodes_cons, eraseOpCodes_mapDelete]

section OpCode

variable (ext : Extern) (clock : Nat → Time) (syslogPriority : String) (srcIP : IP)
  (srcPort : Nat) (dstIP : IP) (length : Int) (protocol : String) (question answer : DNS)
  (timestamp : Time)

theorem answerLoop_eraseOpCode (additionals : Bool) :
    ∀ (anss : List DNSResourceRecord) (k : Nat) (logs : List DNSLogEntry),
      answerLoop ext clock syslogPriority srcIP srcPort dstIP length protocol
          (eraseOpCode question) (eraseOpCode answer) timestamp additionals anss k logs
        = answerLoop ext clock syslogPriority srcIP srcPort dstIP length protocol question
            answer timestamp additionals anss k logs := by
  intro anss
  induction anss with
  | nil => intro k logs; rfl
  | cons a rest ih =>
    intro k logs
    simp only [answerLoop]
    cases hq : question.Questions.head? with
    | none =>
      have : (eraseOpCode question).Questions.head? = none := hq
      rw [this]
    | some q0 =>
      have : (eraseOpCode question).Questions.head? = some q0 := hq
      rw [this]
      simp only []
      rw [ih]
      rfl

theorem initLogEntry_eraseOpCode (logs : List DNSLogEntry) :
    initLogEntry ext clock syslogPriority srcIP srcPort dstIP length protocol
        (eraseOpCode question) (eraseOpCode answer) timestamp logs
      = initLogEntry ext clock syslogPriority srcIP srcPort dstIP length protocol question
          answer timestamp logs := by
  unfold initLogEntry
  simp only []
  rw [answerLoop_eraseOpCode]
  rfl

end OpCode

/-- The observation of `handleDNS` that leaves the opcodes out is the same on a table
and a message as on them with every opcode replaced by 0. -/
theorem handleDNS_eraseOpCode (ext : Extern) (clock : Nat → Time) (conntable : ConnTable)
    (dns : DNS) (syslogPriority : String) (srcIP dstIP : IP) (srcPort dstPort : Nat)
    (length : Int) (protocol : String) (packetTime : Time) (stats : Bool) :
    (handleDNS ext clock conntable dns syslogPriority srcIP dstIP srcPort dstPort length
        protocol packetTime stats).map opCodeBlind
      = (handleDNS ext clock (eraseOpCodes conntable) (eraseOpCode dns) syslogPriority srcIP
          dstIP srcPort dstPort length protocol packetTime stats).map opCodeBlind := by
  have hid : (eraseOpCode dns).ID = dns.ID := rfl
  have hqr : (eraseOpCode dns).QR = dns.QR := rfl
  cases hg : mapGet conntable (uid dns.ID srcPort dstPort) with
  | none =>
    have hg2 : mapGet (eraseOpCodes conntable) (uid (eraseOpCode dns).ID srcPort dstPort)
        = none := by
      rw [hid, mapGet_eraseOpCodes, hg]
      rfl
    rw [handleDNS_miss_eq ext clock conntable dns syslogPriority srcIP dstIP srcPort dstPort
      length protocol packetTime stats hg,
      handleDNS_miss_eq ext clock (eraseOpCodes conntable) (eraseOpCode dns) syslogPriority
        srcIP dstIP srcPort dstPort length protocol packetTime stats hg2]
    simp only [Option.map_some', opCodeBlind, eraseOpCodes_mapSet, eraseOpCodes_idem, hid]
    rfl
  | some item =>
    have hg2 : mapGet (eraseOpCodes conntable) (uid (eraseOpCode dns).ID srcPort dstPort)
        = some (eraseEntry item) := by
      rw [hid, mapGet_eraseOpCodes, hg]
      rfl
    rw [handleDNS_hit_eq ext clock conntable dns syslogPriority srcIP dstIP srcPort dstPort
      length protocol packetTime stats item hg,
      handleDNS_hit_eq ext clock (eraseOpCodes conntable) (eraseOpCode dns) syslogPriority
        srcIP dstIP srcPort dstPort length protocol packetTime stats (eraseEntry item) hg2]
    have hinit : initLogEntry ext clock syslogPriority srcIP srcPort dstIP length protocol
        (if (eraseOpCode dns).QR then (eraseEntry item).entry else eraseOpCode dns)
        (if (eraseOpCode dns).QR then eraseOpCode dns else (eraseEntry item).entry)
        (eraseEntry item).inserted []
        = initLogEntry ext clock syslogPriority srcIP srcPort dstIP length protocol
          (if dns.QR then item.entry else dns) (if dns.QR then dns else item.entry)
          item.inserted [] := by
      rw [hqr]
      cases dns.QR
      · exact initLogEntry_eraseOpCode ext clock syslogPriority srcIP srcPort dstIP length
          protocol dns item.entry item.inserted []
      · exact initLogEntry_eraseOpCode ext clock syslogPriority srcIP srcPort dstIP length
          protocol item.entry dns item.inserted []
    rw [hinit]
    simp only [Option.map_map, hid, hqr]
    congr 1
    funext r
    simp only [Function.comp, opCodeBlind, eraseOpCodes_mapDelete, eraseOpCodes_idem]

/-- C26: two messages that differ at most in their opcode, handled on two tables
that differ at most in the opcodes of the stored messages, make `handleDNS` send the
same records and leave tables that again differ at most in those opcodes (with the
same keys and insertion times): the opcode has no effect on the correlation. -/
theorem handleDNS_opcode_blind (ext : Extern) (clock : Nat → Time) (t1 t2 : ConnTable)
    (dns1 dns2 : DNS) (syslogPriority : String) (srcIP dstIP : IP) (srcPort dstPort : Nat)
    (length : Int) (protocol : String) (packetTime : Time) (stats : Bool)
    (ht : eraseOpCodes t1 = eraseOpCodes t2) (hd : eraseOpCode dns1 = eraseOpCode dns2) :
    (handleDNS ext clock t1 dns1 syslogPriority srcIP dstIP srcPort dstPort length protocol
        packetTime stats).map opCodeBlind
      = (handleDNS ext clock t2 dns2 syslogPriority srcIP dstIP srcPort dstPort length protocol
          packetTime stats).map opCodeBlind := by
  rw [handleDNS_eraseOpCode ext clock t1 dns1, handleDNS_eraseOpCode ext clock t2 dns2, ht, hd]

/-- C26, witness: the `nxdomain` response with the opcode 5 (update) and with the
opcode 0, on the sample table. -/
theorem handleDNS_opcode_blind_witness :
    (handleDNS sampleExtern sampleClock sampleTable { nxResponse with OpCode := 5 } "DEBUG"
        serverIP clientIP 53 40000 161 "packet" 2000 false).map opCodeBlind
      = (handleDNS sampleExtern sampleClock sampleTable nxResponse "DEBUG" serverIP clientIP 53
          40000 161 "packet" 2000 false).map opCodeBlind :=
  handleDNS_opcode_blind sampleExtern sampleClock sampleTable sampleTable
    { nxResponse with OpCode := 5 } nxResponse "DEBUG" serverIP clientIP 53 40000 161 "packet"
    2000 false rfl rfl

/-! ## The shard worker -/

/-- A turn of `handlePacket` on a reassembled TCP frame: `Parse` returns nil whatever
the decoder did, the ports and the size are 0, and `handleDNS` is called on the
`layers.DNS` struct the decoder left, with the wall clock as the packet time. -/
theorem handlePacket_tcp (ext : Extern) (dec : Decoders) (clock : Nat → Time)
    (conntable : ConnTable) (tcpdata : TCPDataStruct) (syslogPriority : String)
    (threadNum : Nat) (stats : Bool) :
    handlePacket ext dec clock conntable (newTCPData tcpdata) syslogPriority threadNum stats
      = some (Outcome.correlated
          (handleDNS ext (fun k => clock (k + 1)) conntable (dec.decodeDNS tcpdata.DNSData).1
            syslogPriority tcpdata.IPLayer.src tcpdata.IPLayer.dst 0 0 0 tcpString (clock 0)
            stats)
          (if stats then [Itoa threadNum ++ ".packet_wall_time"] else [])) := by
  have hne : ¬ tcpString = packetString := by decide
  cases hd : (dec.decodeDNS tcpdata.DNSData).2 <;>
    simp [handlePacket, packetData.Parse, newTCPData, packetData.GetSrcIP, packetData.GetDstIP,
      packetData.HasIPv4Layer, packetData.HasIPv6Layer, foundLayerType, packetData.GetSrcPort,
      packetData.GetDstPort, packetData.GetTimestamp, packetData.IsTCPStream,
      packetData.GetSize, packetData.GetProto, hne, hd, uint16]

/-- C21, at the failing input: a reassembled payload of 3 bytes, which does not decode
as a DNS message, on the empty table. The turn calls `handleDNS` on the zero
`layers.DNS` the decoder left, and the table afterwards holds that message under the
key `0->0:0`. -/
theorem handlePacket_undecoded_payload :
    (sampleDecoders.decodeDNS shortPayload.DNSData).2 = false
    ∧ handlePacket sampleExtern sampleDecoders sampleClock [] (newTCPData shortPayload) "DEBUG"
        1 false
      = some (Outcome.correlated
          (some { connections := [("0->0:0", { entry := DNS.zero, inserted := 5000 })]
                  logChan := []
                  protocol := "tcp"
                  stats := [] }) []) := by
  exact ⟨rfl, rfl⟩

/-- C25: a turn of `handlePacket` on a raw packet. With a TCP layer decoded, also when
a DNS layer was decoded, the segment goes to the reassembler with the IPv4 or the
IPv6 network flow and the packet's timestamp, `handleDNS` is not called, the table
is unchanged and no record is sent. With a DNS layer and no TCP layer, `handleDNS`
is called on the decoded message. With neither, the packet is dropped and the table
is unchanged. -/
theorem handlePacket_raw (ext : Extern) (dec : Decoders) (clock : Nat → Time)
    (conntable : ConnTable) (packet : Packet) (syslogPriority : String) (threadNum : Nat)
    (stats : Bool) :
    (foundLayerType LayerType.LayerTypeTCP (dec.decodePacket packet.Data).found = true →
      ∃ o flow, handlePacket ext dec clock conntable (newPacketData packet) syslogPriority
          threadNum stats = some o
        ∧ o = Outcome.assembled flow (dec.decodePacket packet.Data).tcp packet.Timestamp
        ∧ (flow = { src := (dec.decodePacket packet.Data).ipv4.SrcIP
                    dst := (dec.decodePacket packet.Data).ipv4.DstIP }
          ∨ flow = { src := (dec.decodePacket packet.Data).ipv6.SrcIP
                     dst := (dec.decodePacket packet.Data).ipv6.DstIP })
        ∧ o.connections conntable = some conntable
        ∧ o.logChan = [])
    ∧ (foundLayerType LayerType.LayerTypeTCP (dec.decodePacket packet.Data).found = false →
        foundLayerType LayerType.LayerTypeDNS (dec.decodePacket packet.Data).found = true →
      ∃ srcIP dstIP, handlePacket ext dec clock conntable (newPacketData packet) syslogPriority
          threadNum stats
        = some (Outcome.correlated
            (handleDNS ext clock conntable (dec.decodePacket packet.Data).dns syslogPriority
              srcIP dstIP (uint16 (dec.decodePacket packet.Data).udp.SrcPort)
              (uint16 (dec.decodePacket packet.Data).udp.DstPort) packet.Length packetString
              packet.Timestamp stats)
            (if stats then [Itoa threadNum ++ ".dns_lookups"] else [])))
    ∧ (foundLayerType LayerType.LayerTypeTCP (dec.decodePacket packet.Data).found = false →
        foundLayerType LayerType.LayerTypeDNS (dec.decodePacket packet.Data).found = false →
      handlePacket ext dec clock conntable (newPacketData packet) syslogPriority threadNum
          stats = some Outcome.missing
        ∧ Outcome.missing.connections conntable = some conntable
        ∧ Outcome.missing.logChan = []) := by
  have hne : ¬ packetString = tcpString := by decide
  refine ⟨fun ht => ?_, fun ht hd => ?_, fun ht hd => ?_⟩
  · cases h4 : foundLayerType LayerType.LayerTypeIPv4 (dec.decodePacket packet.Data).found <;>
      cases h6 : foundLayerType LayerType.LayerTypeIPv6 (dec.decodePacket packet.Data).found <;>
      simp only [handlePacket, packetData.Parse, newPacketData, packetData.GetSrcIP,
        packetData.GetDstIP, packetData.HasIPv4Layer, packetData.HasIPv6Layer,
        packetData.HasTCPLayer, packetData.GetTimestamp, packetData.IsTCPStream, hne, h4, h6,
        ht, if_true, if_false, Option.map_some', decide_False, Bool.false_eq_true] <;>
      split <;>
      exact ⟨_, _, rfl, rfl, by simp, rfl, rfl⟩
  · cases h4 : foundLayerType LayerType.LayerTypeIPv4 (dec.decodePacket packet.Data).found <;>
      cases h6 : foundLayerType LayerType.LayerTypeIPv6 (dec.decodePacket packet.Data).found <;>
      simp [handlePacket, packetData.Parse, newPacketData, packetData.GetSrcIP,
        packetData.GetDstIP, packetData.HasIPv4Layer, packetData.HasIPv6Layer,
        packetData.HasTCPLayer, packetData.HasDNSLayer, packetData.GetTimestamp,
        packetData.IsTCPStream, packetData.GetSrcPort, packetData.GetDstPort,
        packetData.GetSize, packetData.GetProto, hne, h4, h6, ht, hd] <;>
      exact ⟨_, _, rfl⟩
  · cases h4 : foundLayerType LayerType.LayerTypeIPv4 (dec.decodePacket packet.Data).found <;>
      cases h6 : foundLayerType LayerType.LayerTypeIPv6 (dec.decodePacket packet.Data).found <;>
      simp [handlePacket, packetData.Parse, newPacketData, packetData.GetSrcIP,
        packetData.GetDstIP, packetData.HasIPv4Layer, packetData.HasIPv6Layer,
        packetData.HasTCPLayer, packetData.HasDNSLayer, packetData.GetTimestamp,
        packetData.IsTCPStream, hne, h4, h6, ht, hd, Outcome.connections, Outcome.logChan]

theorem uid_zero_ports (id : Nat) : uid id 0 0 = Itoa id ++ "->0:0" := by
  have h : ¬ (0 : Nat) = 53 := by decide
  simp only [uid, if_neg h, String.append_assoc]
  rfl

/-- C30: for every reassembled-TCP frame `GetSrcPort`, `GetDstPort` and `GetSize` are
0 after `Parse`, and the key of `handleDNS` is the decimal id followed by `->0:0`.
So two reassembled-TCP frames whose messages have the same id, on any two flows,
are correlated: on a table without that key the first is stored and sends nothing,
and the second is a hit on it, whose records are built from the two messages. -/
theorem handlePacket_tcp_same_id (ext : Extern) (dec : Decoders) (clock1 clock2 : Nat → Time)
    (conntable : ConnTable) (f1 f2 : TCPDataStruct) (syslogPriority : String)
    (threadNum : Nat) (stats : Bool)
    (hid : (dec.decodeDNS f1.DNSData).1.ID = (dec.decodeDNS f2.DNSData).1.ID)
    (hmiss : mapGet conntable (Itoa (dec.decodeDNS f1.DNSData).1.ID ++ "->0:0") = none) :
    (∃ pd, (newTCPData f1).Parse dec = Except.ok pd
      ∧ pd.GetSrcPort = 0 ∧ pd.GetDstPort = 0 ∧ pd.GetSize = 0)
    ∧ uid (dec.decodeDNS f1.DNSData).1.ID 0 0 = Itoa (dec.decodeDNS f1.DNSData).1.ID ++ "->0:0"
    ∧ ∃ s1 wall,
        handlePacket ext dec clock1 conntable (newTCPData f1) syslogPriority threadNum stats
          = some (Outcome.correlated (some s1) wall)
        ∧ s1.logChan = []
        ∧ mapGet s1.connections (Itoa (dec.decodeDNS f1.DNSData).1.ID ++ "->0:0")
            = some { entry := (dec.decodeDNS f1.DNSData).1, inserted := clock1 0 }
        ∧ handlePacket ext dec clock2 s1.connections (newTCPData f2) syslogPriority threadNum
            stats
          = some (Outcome.correlated
              ((initLogEntry ext (fun k => clock2 (k + 1)) syslogPriority f2.IPLayer.src 0
                  f2.IPLayer.dst 0 tcpString
                  (if (dec.decodeDNS f2.DNSData).1.QR then (dec.decodeDNS f1.DNSData).1
                    else (dec.decodeDNS f2.DNSData).1)
                  (if (dec.decodeDNS f2.DNSData).1.QR then (dec.decodeDNS f2.DNSData).1
                    else (dec.decodeDNS f1.DNSData).1)
                  (clock1 0) []).map
                (fun r =>
                  { connections := mapDelete s1.connections
                      (Itoa (dec.decodeDNS f1.DNSData).1.ID ++ "->0:0")
                    logChan := r.1
                    protocol := r.2
                    stats := if stats then
                      [if (dec.decodeDNS f2.DNSData).1.QR then "log_qr" else "log_no_qr"]
                      else [] }))
              wall) := by
  have hne : ¬ tcpString = packetString := by decide
  refine ⟨?_, uid_zero_ports _, ?_⟩
  · refine ⟨_, by simp only [packetData.Parse, newTCPData, if_true]; rfl, ?_, ?_, ?_⟩
    · rfl
    · rfl
    · simp [packetData.GetSize, hne]
  · have hmiss1 : mapGet conntable (uid (dec.decodeDNS f1.DNSData).1.ID 0 0) = none := by
      rw [uid_zero_ports]
      exact hmiss
    refine ⟨{ connections := mapSet conntable (uid (dec.decodeDNS f1.DNSData).1.ID 0 0)
                { entry := (dec.decodeDNS f1.DNSData).1, inserted := clock1 0 }
              logChan := []
              protocol := tcpString
              stats := [] },
      if stats then [Itoa threadNum ++ ".packet_wall_time"] else [], ?_, rfl, ?_, ?_⟩
    · rw [handlePacket_tcp, handleDNS_miss_eq _ _ _ _ _ _ _ _ _ _ _ _ _ hmiss1]
    · simp only []
      rw [uid_zero_ports]
      exact mapGet_mapSet_self _ _ _
    · have hhit : mapGet (mapSet conntable (uid (dec.decodeDNS f1.DNSData).1.ID 0 0)
          { entry := (dec.decodeDNS f1.DNSData).1, inserted := clock1 0 })
          (uid (dec.decodeDNS f2.DNSData).1.ID 0 0)
          = some { entry := (dec.decodeDNS f1.DNSData).1, inserted := clock1 0 } := by
        rw [← hid]
        exact mapGet_mapSet_self _ _ _
      rw [handlePacket_tcp, handleDNS_hit_eq _ _ _ _ _ _ _ _ _ _ _ _ _ _ hhit, ← hid,
        uid_zero_ports]

/-- C30, witness: the `nxdomain` question and response as reassembled frames on two
unrelated flows, on the empty table. -/
theorem handlePacket_tcp_same_id_witness :
    (∃ pd, (newTCPData tcpFrameA).Parse sampleDecoders = Except.ok pd
      ∧ pd.GetSrcPort = 0 ∧ pd.GetDstPort = 0 ∧ pd.GetSize = 0)
    ∧ uid (sampleDecoders.decodeDNS tcpFrameA.DNSData).1.ID 0 0
        = Itoa (sampleDecoders.decodeDNS tcpFrameA.DNSData).1.ID ++ "->0:0"
    ∧ ∃ s1 wall,
        handlePacket sampleExtern sampleDecoders sampleClock [] (newTCPData tcpFrameA) "DEBUG" 1
            false
          = some (Outcome.correlated (some s1) wall)
        ∧ s1.logChan = []
        ∧ mapGet s1.connections (Itoa (sampleDecoders.decodeDNS tcpFrameA.DNSData).1.ID ++ "->0:0")
            = some { entry := (sampleDecoders.decodeDNS tcpFrameA.DNSData).1
                     inserted := sampleClock 0 }
        ∧ handlePacket sampleExtern sampleDecoders sampleClock s1.connections
            (newTCPData tcpFrameB) "DEBUG" 1 false
          = some (Outcome.correlated
              ((initLogEntry sampleExtern (fun k => sampleClock (k + 1)) "DEBUG"
                  tcpFrameB.IPLayer.src 0 tcpFrameB.IPLayer.dst 0 tcpString
                  (if (sampleDecoders.decodeDNS tcpFrameB.DNSData).1.QR
                    then (sampleDecoders.decodeDNS tcpFrameA.DNSData).1
                    else (sampleDecoders.decodeDNS tcpFrameB.DNSData).1)
                  (if (sampleDecoders.decodeDNS tcpFrameB.DNSData).1.QR
                    then (sampleDecoders.decodeDNS tcpFrameB.DNSData).1
                    else (sampleDecoders.decodeDNS tcpFrameA.DNSData).1)
                  (sampleClock 0) []).map
                (fun r =>
                  { connections := mapDelete s1.connections
                      (Itoa (sampleDecoders.decodeDNS tcpFrameA.DNSData).1.ID ++ "->0:0")
                    logChan := r.1
                    protocol := r.2
                    stats := if false then
                      [if (sampleDecoders.decodeDNS tcpFrameB.DNSData).1.QR then "log_qr"
                        else "log_no_qr"]
                      else [] }))
              wall) :=
  handlePacket_tcp_same_id sampleExtern sampleDecoders sampleClock sampleClock [] tcpFrameA
    tcpFrameB "DEBUG" 1 false rfl rfl

end GoPassiveDNS
